import Mathlib

/-!
# Verification of the MFEM vector-diffusion partial-assembly kernels

This file gives a shallow embedding of `fem/integ/bilininteg_vecdiffusion_pa.cpp`:
the setup kernels (`PAVectorDiffusionSetup2D`, `PAVectorDiffusionSetup3D`, the
surface branch of `VectorDiffusionIntegrator::AssemblePA`), the apply kernels
(`PAVectorDiffusionApply2D`, `PAVectorDiffusionApply3D`), the diagonal kernels
(`PAVectorDiffusionDiagonal2D`, `PAVectorDiffusionDiagonal3D`) and the dispatch
routines, together with proofs of the functional and algebraic properties the
specification states about them.

Real numbers (`real_t`) are modelled by `ℚ` (exact arithmetic: the spec's
properties are stated "modulo floating-point rounding order").  The flat
device buffers accessed through `Reshape` views are modelled as index
functions with the same index order as the views; the ranges of the loops in
the kernels become `Finset.range` sums and explicit range guards.  `MFEM_ABORT`
and failed `MFEM_VERIFY` checks are modelled with `Except.error`.
-/

open Finset

/-- A coefficient vector as produced by `CoefficientVector` with
`CoefficientStorage::COMPRESSED`: `size` models `Vector::Size()` and `data`
the stored values.  The kernels branch on `size == 1` to decide between the
constant representation and the full per-quadrature-point array. -/
structure CoeffVec where
  size : ℕ
  data : ℕ → ℚ

/-- Coefficient sample used by the setup kernels: the code reads `C(0,0)` when
`c.Size() == 1` and otherwise `C(q,e)` through a `Reshape(c, NQ, NE)` view,
i.e. flat index `q + NQ*e`. -/
def coeffAt (NQ : ℕ) (c : CoeffVec) (q e : ℕ) : ℚ :=
  if c.size = 1 then c.data 0 else c.data (q + NQ * e)

/-- Embedding of the `PAVectorDiffusionSetup2D` kernel.  The Jacobian view
`J (q,r,col,e)` models `Reshape(j, NQ, 2, 2, NE)`; the result function models
the `Reshape(op, NQ, 3, NE)` view `y(q,i,e)`.  Indices outside the written
range (`q < Q1D*Q1D`, `i < 3`, `e < NE`) are mapped to `0`. -/
def PAVectorDiffusionSetup2D (Q1D NE : ℕ) (W : ℕ → ℚ)
    (J : ℕ → ℕ → ℕ → ℕ → ℚ) (c : CoeffVec) (q i e : ℕ) : ℚ :=
  if q < Q1D * Q1D ∧ e < NE then
    let J11 := J q 0 0 e
    let J21 := J q 1 0 e
    let J12 := J q 0 1 e
    let J22 := J q 1 1 e
    let C1 := coeffAt (Q1D * Q1D) c q e
    let c_detJ := W q * C1 / (J11 * J22 - J21 * J12)
    if i = 0 then c_detJ * (J12 * J12 + J22 * J22)
    else if i = 1 then -(c_detJ * (J12 * J11 + J22 * J21))
    else if i = 2 then c_detJ * (J11 * J11 + J21 * J21)
    else 0
  else 0

/-- Embedding of the `PAVectorDiffusionSetup3D` kernel: `J (q,r,col,e)` models
`Reshape(j, NQ, 3, 3, NE)` and the result models `Reshape(op, NQ, 6, NE)`. -/
def PAVectorDiffusionSetup3D (Q1D NE : ℕ) (W : ℕ → ℚ)
    (J : ℕ → ℕ → ℕ → ℕ → ℚ) (c : CoeffVec) (q i e : ℕ) : ℚ :=
  if q < Q1D * Q1D * Q1D ∧ e < NE then
    let J11 := J q 0 0 e
    let J21 := J q 1 0 e
    let J31 := J q 2 0 e
    let J12 := J q 0 1 e
    let J22 := J q 1 1 e
    let J32 := J q 2 1 e
    let J13 := J q 0 2 e
    let J23 := J q 1 2 e
    let J33 := J q 2 2 e
    let detJ := J11 * (J22 * J33 - J32 * J23) -
                J21 * (J12 * J33 - J32 * J13) +
                J31 * (J12 * J23 - J22 * J13)
    let C1 := coeffAt (Q1D * Q1D * Q1D) c q e
    let c_detJ := W q * C1 / detJ
    let A11 := J22 * J33 - J23 * J32
    let A12 := J32 * J13 - J12 * J33
    let A13 := J12 * J23 - J22 * J13
    let A21 := J31 * J23 - J21 * J33
    let A22 := J11 * J33 - J13 * J31
    let A23 := J21 * J13 - J11 * J23
    let A31 := J21 * J32 - J31 * J22
    let A32 := J31 * J12 - J11 * J32
    let A33 := J11 * J22 - J12 * J21
    if i = 0 then c_detJ * (A11 * A11 + A12 * A12 + A13 * A13)
    else if i = 1 then c_detJ * (A11 * A21 + A12 * A22 + A13 * A23)
    else if i = 2 then c_detJ * (A11 * A31 + A12 * A32 + A13 * A33)
    else if i = 3 then c_detJ * (A21 * A21 + A22 * A22 + A23 * A23)
    else if i = 4 then c_detJ * (A21 * A31 + A22 * A32 + A23 * A33)
    else if i = 5 then c_detJ * (A31 * A31 + A32 * A32 + A33 * A33)
    else 0
  else 0

/-- Embedding of the `dim == 2 && sdim == 3` surface branch inside
`VectorDiffusionIntegrator::AssemblePA`.  The Jacobian view models
`Reshape(j, NQ, 3, 2, ne)`.  The square root called by the code is an
external library function, passed here as the parameter `sq`. -/
def VectorDiffusionSetupSurface (Q1D NE : ℕ) (sq : ℚ → ℚ) (W : ℕ → ℚ)
    (J : ℕ → ℕ → ℕ → ℕ → ℚ) (c : CoeffVec) (q i e : ℕ) : ℚ :=
  if q < Q1D * Q1D ∧ e < NE then
    let wq := W q
    let J11 := J q 0 0 e
    let J21 := J q 1 0 e
    let J31 := J q 2 0 e
    let J12 := J q 0 1 e
    let J22 := J q 1 1 e
    let J32 := J q 2 1 e
    let E := J11 * J11 + J21 * J21 + J31 * J31
    let G := J12 * J12 + J22 * J22 + J32 * J32
    let F := J11 * J12 + J21 * J22 + J31 * J32
    let iw := 1 / sq (E * G - F * F)
    let C1 := coeffAt (Q1D * Q1D) c q e
    let alpha := wq * C1 * iw
    if i = 0 then alpha * G
    else if i = 1 then -(alpha * F)
    else if i = 2 then alpha * E
    else 0
  else 0

/-- Embedding of the `PAVectorDiffusionSetup` dispatch routine: dimensions
outside `{2,3}` hit `MFEM_ABORT("Dimension not supported.")`. -/
def PAVectorDiffusionSetup (dim Q1D NE : ℕ) (W : ℕ → ℚ)
    (J : ℕ → ℕ → ℕ → ℕ → ℚ) (c : CoeffVec) :
    Except String (ℕ → ℕ → ℕ → ℚ) :=
  if ¬(dim = 2 ∨ dim = 3) then Except.error "Dimension not supported."
  else if dim = 2 then Except.ok (PAVectorDiffusionSetup2D Q1D NE W J c)
  else Except.ok (PAVectorDiffusionSetup3D Q1D NE W J c)

/-- Stage `gradX` of the forward transform in `PAVectorDiffusionApply2D`:
`∑ dx, x(dx,dy,c,e) * T(qx,dx)` where `T` is `B` (values) or `G`
(derivatives). -/
def a2gradX (D1D : ℕ) (T : ℕ → ℕ → ℚ) (x : ℕ → ℕ → ℕ → ℕ → ℚ)
    (dy c e qx : ℕ) : ℚ :=
  ∑ dx ∈ range D1D, x dx dy c e * T qx dx

/-- Component `0` of `grad` after the forward transform of
`PAVectorDiffusionApply2D`: the x-derivative at quadrature point `(qx,qy)`. -/
def a2grad0 (D1D : ℕ) (B G : ℕ → ℕ → ℚ) (x : ℕ → ℕ → ℕ → ℕ → ℚ)
    (c e qy qx : ℕ) : ℚ :=
  ∑ dy ∈ range D1D, a2gradX D1D G x dy c e qx * B qy dy

/-- Component `1` of `grad` after the forward transform of
`PAVectorDiffusionApply2D`: the y-derivative at quadrature point `(qx,qy)`. -/
def a2grad1 (D1D : ℕ) (B G : ℕ → ℕ → ℚ) (x : ℕ → ℕ → ℕ → ℕ → ℚ)
    (c e qy qx : ℕ) : ℚ :=
  ∑ dy ∈ range D1D, a2gradX D1D B x dy c e qx * G qy dy

/-- Component `0` of `grad` after the pointwise multiply of
`PAVectorDiffusionApply2D`: `O11*gradX + O12*gradY` with
`O11 = D(q,0,e)`, `O12 = D(q,1,e)`, `q = qx + qy*Q1D`. -/
def a2u0 (D1D Q1D : ℕ) (B G : ℕ → ℕ → ℚ) (D : ℕ → ℕ → ℕ → ℚ)
    (x : ℕ → ℕ → ℕ → ℕ → ℚ) (c e qy qx : ℕ) : ℚ :=
  D (qx + qy * Q1D) 0 e * a2grad0 D1D B G x c e qy qx +
    D (qx + qy * Q1D) 1 e * a2grad1 D1D B G x c e qy qx

/-- Component `1` of `grad` after the pointwise multiply of
`PAVectorDiffusionApply2D`: `O12*gradX + O22*gradY` with `O22 = D(q,2,e)`. -/
def a2u1 (D1D Q1D : ℕ) (B G : ℕ → ℕ → ℚ) (D : ℕ → ℕ → ℕ → ℚ)
    (x : ℕ → ℕ → ℕ → ℕ → ℚ) (c e qy qx : ℕ) : ℚ :=
  D (qx + qy * Q1D) 1 e * a2grad0 D1D B G x c e qy qx +
    D (qx + qy * Q1D) 2 e * a2grad1 D1D B G x c e qy qx

/-- Amount added by `PAVectorDiffusionApply2D` to the output entry
`y(dx,dy,c,e)`: the backward transform of the transformed gradient, using the
transposed tables `Bt`, `Gt`. -/
def applyContrib2D (D1D Q1D : ℕ) (B G Bt Gt : ℕ → ℕ → ℚ)
    (D : ℕ → ℕ → ℕ → ℚ) (x : ℕ → ℕ → ℕ → ℕ → ℚ) (dx dy c e : ℕ) : ℚ :=
  ∑ qy ∈ range Q1D,
    ((∑ qx ∈ range Q1D, a2u0 D1D Q1D B G D x c e qy qx * Gt dx qx) * Bt dy qy +
     (∑ qx ∈ range Q1D, a2u1 D1D Q1D B G D x c e qy qx * Bt dx qx) * Gt dy qy)

/-- Final state of the output vector of `PAVectorDiffusionApply2D` (the
runtime-sized kernel body, after the `MFEM_VERIFY` checks): `y0` is the state
of `y` on entry, viewed through `Reshape(y, D1D, D1D, VDIM, NE)`; every entry
in the written range is accumulated into (`+=`), entries outside are kept. -/
def apply2DOut (D1D Q1D VDIM NE : ℕ) (B G Bt Gt : ℕ → ℕ → ℚ)
    (D : ℕ → ℕ → ℕ → ℚ) (x : ℕ → ℕ → ℕ → ℕ → ℚ) (y0 : ℕ → ℕ → ℕ → ℕ → ℚ)
    (dx dy c e : ℕ) : ℚ :=
  y0 dx dy c e +
    if dx < D1D ∧ dy < D1D ∧ c < VDIM ∧ e < NE then
      applyContrib2D D1D Q1D B G Bt Gt D x dx dy c e
    else 0

/-- Embedding of the runtime-sized `PAVectorDiffusionApply2D` kernel with its
`MFEM_VERIFY(D1D <= MAX_D1D)` and `MFEM_VERIFY(Q1D <= MAX_Q1D)` precondition
checks; `maxD1D`/`maxQ1D` model the backend limits
`DeviceDofQuadLimits::Get().MAX_D1D` / `MAX_Q1D`. -/
def PAVectorDiffusionApply2D (maxD1D maxQ1D D1D Q1D VDIM NE : ℕ)
    (B G Bt Gt : ℕ → ℕ → ℚ) (D : ℕ → ℕ → ℕ → ℚ)
    (x y0 : ℕ → ℕ → ℕ → ℕ → ℚ) :
    Except String (ℕ → ℕ → ℕ → ℕ → ℚ) :=
  if ¬(D1D ≤ maxD1D) then Except.error ""
  else if ¬(Q1D ≤ maxQ1D) then Except.error ""
  else Except.ok (apply2DOut D1D Q1D VDIM NE B G Bt Gt D x y0)

/-- Accumulator `QD0[qx][dy]` of `PAVectorDiffusionDiagonal2D`:
`∑ qy, B(qy,dy)^2 * D(q,0,e)`. -/
def dQD0 (Q1D : ℕ) (B : ℕ → ℕ → ℚ) (D : ℕ → ℕ → ℕ → ℚ) (e qx dy : ℕ) : ℚ :=
  ∑ qy ∈ range Q1D, B qy dy * B qy dy * D (qx + qy * Q1D) 0 e

/-- Accumulator `QD1[qx][dy]` of `PAVectorDiffusionDiagonal2D`:
`∑ qy, B(qy,dy)*G(qy,dy) * D(q,1,e)`. -/
def dQD1 (Q1D : ℕ) (B G : ℕ → ℕ → ℚ) (D : ℕ → ℕ → ℕ → ℚ) (e qx dy : ℕ) : ℚ :=
  ∑ qy ∈ range Q1D, B qy dy * G qy dy * D (qx + qy * Q1D) 1 e

/-- Accumulator `QD2[qx][dy]` of `PAVectorDiffusionDiagonal2D`:
`∑ qy, G(qy,dy)^2 * D(q,2,e)`. -/
def dQD2 (Q1D : ℕ) (G : ℕ → ℕ → ℚ) (D : ℕ → ℕ → ℕ → ℚ) (e qx dy : ℕ) : ℚ :=
  ∑ qy ∈ range Q1D, G qy dy * G qy dy * D (qx + qy * Q1D) 2 e

/-- The scalar `temp` computed by `PAVectorDiffusionDiagonal2D` for the output
dof `(dx,dy)` of element `e`; it is accumulated into both vector components. -/
def diagTemp2D (Q1D : ℕ) (B G : ℕ → ℕ → ℚ) (D : ℕ → ℕ → ℕ → ℚ)
    (e dx dy : ℕ) : ℚ :=
  ∑ qx ∈ range Q1D,
    (G qx dx * G qx dx * dQD0 Q1D B D e qx dy +
     G qx dx * B qx dx * dQD1 Q1D B G D e qx dy +
     B qx dx * G qx dx * dQD1 Q1D B G D e qx dy +
     B qx dx * B qx dx * dQD2 Q1D G D e qx dy)

/-- Final state of the output vector of `PAVectorDiffusionDiagonal2D`, viewed
through `Reshape(y, D1D, D1D, 2, NE)`: the same `temp` is accumulated into
both vector components `c = 0` and `c = 1`. -/
def diag2DOut (D1D Q1D NE : ℕ) (B G : ℕ → ℕ → ℚ) (D : ℕ → ℕ → ℕ → ℚ)
    (y0 : ℕ → ℕ → ℕ → ℕ → ℚ) (dx dy c e : ℕ) : ℚ :=
  y0 dx dy c e +
    if dx < D1D ∧ dy < D1D ∧ c < 2 ∧ e < NE then diagTemp2D Q1D B G D e dx dy
    else 0

/-- Embedding of the runtime-sized `PAVectorDiffusionDiagonal2D` kernel with
its `MFEM_VERIFY` precondition checks on `D1D` and `Q1D`. -/
def PAVectorDiffusionDiagonal2D (maxD1D maxQ1D D1D Q1D NE : ℕ)
    (B G : ℕ → ℕ → ℚ) (D : ℕ → ℕ → ℕ → ℚ) (y0 : ℕ → ℕ → ℕ → ℕ → ℚ) :
    Except String (ℕ → ℕ → ℕ → ℕ → ℚ) :=
  if ¬(D1D ≤ maxD1D) then Except.error ""
  else if ¬(Q1D ≤ maxQ1D) then Except.error ""
  else Except.ok (diag2DOut D1D Q1D NE B G D y0)

/-- Stage `gradX` of the forward transform in `PAVectorDiffusionApply3D`:
`∑ dx, x(dx,dy,dz,c,e) * T(qx,dx)`. -/
def a3gradX (D1D : ℕ) (T : ℕ → ℕ → ℚ) (x : ℕ → ℕ → ℕ → ℕ → ℕ → ℚ)
    (dy dz c e qx : ℕ) : ℚ :=
  ∑ dx ∈ range D1D, x dx dy dz c e * T qx dx

/-- Component `0` of `grad` after the forward transform of
`PAVectorDiffusionApply3D`: weights `G(qx,·) B(qy,·) B(qz,·)`. -/
def a3grad0 (D1D : ℕ) (B G : ℕ → ℕ → ℚ) (x : ℕ → ℕ → ℕ → ℕ → ℕ → ℚ)
    (c e qz qy qx : ℕ) : ℚ :=
  ∑ dz ∈ range D1D,
    (∑ dy ∈ range D1D, a3gradX D1D G x dy dz c e qx * B qy dy) * B qz dz

/-- Component `1` of `grad` after the forward transform of
`PAVectorDiffusionApply3D`: weights `B(qx,·) G(qy,·) B(qz,·)`. -/
def a3grad1 (D1D : ℕ) (B G : ℕ → ℕ → ℚ) (x : ℕ → ℕ → ℕ → ℕ → ℕ → ℚ)
    (c e qz qy qx : ℕ) : ℚ :=
  ∑ dz ∈ range D1D,
    (∑ dy ∈ range D1D, a3gradX D1D B x dy dz c e qx * G qy dy) * B qz dz

/-- Component `2` of `grad` after the forward transform of
`PAVectorDiffusionApply3D`: weights `B(qx,·) B(qy,·) G(qz,·)`. -/
def a3grad2 (D1D : ℕ) (B G : ℕ → ℕ → ℚ) (x : ℕ → ℕ → ℕ → ℕ → ℕ → ℚ)
    (c e qz qy qx : ℕ) : ℚ :=
  ∑ dz ∈ range D1D,
    (∑ dy ∈ range D1D, a3gradX D1D B x dy dz c e qx * B qy dy) * G qz dz

/-- Component `0` of `grad` after the pointwise multiply of
`PAVectorDiffusionApply3D`: `O11*gradX + O12*gradY + O13*gradZ` with the six
stored entries `O11..O33 = D(q,0..5,e)`, `q = qx + (qy + qz*Q1D)*Q1D`. -/
def a3u0 (D1D Q1D : ℕ) (B G : ℕ → ℕ → ℚ) (D : ℕ → ℕ → ℕ → ℚ)
    (x : ℕ → ℕ → ℕ → ℕ → ℕ → ℚ) (c e qz qy qx : ℕ) : ℚ :=
  D (qx + (qy + qz * Q1D) * Q1D) 0 e * a3grad0 D1D B G x c e qz qy qx +
    D (qx + (qy + qz * Q1D) * Q1D) 1 e * a3grad1 D1D B G x c e qz qy qx +
    D (qx + (qy + qz * Q1D) * Q1D) 2 e * a3grad2 D1D B G x c e qz qy qx

/-- Component `1` of `grad` after the pointwise multiply of
`PAVectorDiffusionApply3D`: `O12*gradX + O22*gradY + O23*gradZ`. -/
def a3u1 (D1D Q1D : ℕ) (B G : ℕ → ℕ → ℚ) (D : ℕ → ℕ → ℕ → ℚ)
    (x : ℕ → ℕ → ℕ → ℕ → ℕ → ℚ) (c e qz qy qx : ℕ) : ℚ :=
  D (qx + (qy + qz * Q1D) * Q1D) 1 e * a3grad0 D1D B G x c e qz qy qx +
    D (qx + (qy + qz * Q1D) * Q1D) 3 e * a3grad1 D1D B G x c e qz qy qx +
    D (qx + (qy + qz * Q1D) * Q1D) 4 e * a3grad2 D1D B G x c e qz qy qx

/-- Component `2` of `grad` after the pointwise multiply of
`PAVectorDiffusionApply3D`: `O13*gradX + O23*gradY + O33*gradZ`. -/
def a3u2 (D1D Q1D : ℕ) (B G : ℕ → ℕ → ℚ) (D : ℕ → ℕ → ℕ → ℚ)
    (x : ℕ → ℕ → ℕ → ℕ → ℕ → ℚ) (c e qz qy qx : ℕ) : ℚ :=
  D (qx + (qy + qz * Q1D) * Q1D) 2 e * a3grad0 D1D B G x c e qz qy qx +
    D (qx + (qy + qz * Q1D) * Q1D) 4 e * a3grad1 D1D B G x c e qz qy qx +
    D (qx + (qy + qz * Q1D) * Q1D) 5 e * a3grad2 D1D B G x c e qz qy qx

/-- Amount added by `PAVectorDiffusionApply3D` to the output entry
`y(dx,dy,dz,c,e)`: the backward transform, using `Bt`, `Gt`. -/
def applyContrib3D (D1D Q1D : ℕ) (B G Bt Gt : ℕ → ℕ → ℚ)
    (D : ℕ → ℕ → ℕ → ℚ) (x : ℕ → ℕ → ℕ → ℕ → ℕ → ℚ) (dx dy dz c e : ℕ) : ℚ :=
  ∑ qz ∈ range Q1D,
    ((∑ qy ∈ range Q1D,
        (∑ qx ∈ range Q1D, a3u0 D1D Q1D B G D x c e qz qy qx * Gt dx qx) *
          Bt dy qy) * Bt dz qz +
     (∑ qy ∈ range Q1D,
        (∑ qx ∈ range Q1D, a3u1 D1D Q1D B G D x c e qz qy qx * Bt dx qx) *
          Gt dy qy) * Bt dz qz +
     (∑ qy ∈ range Q1D,
        (∑ qx ∈ range Q1D, a3u2 D1D Q1D B G D x c e qz qy qx * Bt dx qx) *
          Bt dy qy) * Gt dz qz)

/-- Final state of the output vector of `PAVectorDiffusionApply3D`, viewed
through `Reshape(y, D1D, D1D, D1D, 3, NE)` (the kernel fixes `VDIM = 3`). -/
def apply3DOut (D1D Q1D NE : ℕ) (B G Bt Gt : ℕ → ℕ → ℚ)
    (D : ℕ → ℕ → ℕ → ℚ) (x y0 : ℕ → ℕ → ℕ → ℕ → ℕ → ℚ)
    (dx dy dz c e : ℕ) : ℚ :=
  y0 dx dy dz c e +
    if dx < D1D ∧ dy < D1D ∧ dz < D1D ∧ c < 3 ∧ e < NE then
      applyContrib3D D1D Q1D B G Bt Gt D x dx dy dz c e
    else 0

/-- Embedding of the runtime-sized `PAVectorDiffusionApply3D` kernel with its
`MFEM_VERIFY` precondition checks on `D1D` and `Q1D`. -/
def PAVectorDiffusionApply3D (maxD1D maxQ1D D1D Q1D NE : ℕ)
    (B G Bt Gt : ℕ → ℕ → ℚ) (D : ℕ → ℕ → ℕ → ℚ)
    (x y0 : ℕ → ℕ → ℕ → ℕ → ℕ → ℚ) :
    Except String (ℕ → ℕ → ℕ → ℕ → ℕ → ℚ) :=
  if ¬(D1D ≤ maxD1D) then Except.error ""
  else if ¬(Q1D ≤ maxQ1D) then Except.error ""
  else Except.ok (apply3DOut D1D Q1D NE B G Bt Gt D x y0)

/-- Symmetric-storage index computed by `PAVectorDiffusionDiagonal3D`:
`k = j >= i ? 3 - (3-i)*(2-i)/2 + j : 3 - (3-j)*(2-j)/2 + i`. -/
def kIdx (i j : ℕ) : ℕ :=
  if i ≤ j then 3 - (3 - i) * (2 - i) / 2 + j else 3 - (3 - j) * (2 - j) / 2 + i

/-- The `i == axis` selection of `PAVectorDiffusionDiagonal3D`: the derivative
table `G` on the matching axis, the value table `B` elsewhere. -/
def wSel (B G : ℕ → ℕ → ℚ) (i axis q d : ℕ) : ℚ :=
  if i = axis then G q d else B q d

/-- Accumulator `QQD[qx][qy][dz]` of `PAVectorDiffusionDiagonal3D` for the
derivative-pair `(i,j)`: contraction along the z axis. -/
def dQQD (Q1D : ℕ) (B G : ℕ → ℕ → ℚ) (D : ℕ → ℕ → ℕ → ℚ)
    (i j e qx qy dz : ℕ) : ℚ :=
  ∑ qz ∈ range Q1D,
    wSel B G i 2 qz dz * D (qx + (qy + qz * Q1D) * Q1D) (kIdx i j) e *
      wSel B G j 2 qz dz

/-- Accumulator `QDD[qx][dy][dz]` of `PAVectorDiffusionDiagonal3D`:
contraction along the y axis. -/
def dQDD (Q1D : ℕ) (B G : ℕ → ℕ → ℚ) (D : ℕ → ℕ → ℕ → ℚ)
    (i j e qx dy dz : ℕ) : ℚ :=
  ∑ qy ∈ range Q1D,
    wSel B G i 1 qy dy * dQQD Q1D B G D i j e qx qy dz * wSel B G j 1 qy dy

/-- The scalar accumulated by `PAVectorDiffusionDiagonal3D` into every vector
component of the output dof `(dx,dy,dz)` of element `e`: the sum over the
`DIM*DIM` derivative pairs `(i,j)` of the x-axis contraction of `QDD`. -/
def diagTemp3D (Q1D : ℕ) (B G : ℕ → ℕ → ℚ) (D : ℕ → ℕ → ℕ → ℚ)
    (e dx dy dz : ℕ) : ℚ :=
  ∑ i ∈ range 3, ∑ j ∈ range 3,
    ∑ qx ∈ range Q1D,
      wSel B G i 0 qx dx * dQDD Q1D B G D i j e qx dy dz * wSel B G j 0 qx dx

/-- Final state of the output vector of `PAVectorDiffusionDiagonal3D`, viewed
through `Reshape(y, D1D, D1D, D1D, 3, NE)`: the same `temp` is accumulated
into all three vector components. -/
def diag3DOut (D1D Q1D NE : ℕ) (B G : ℕ → ℕ → ℚ) (D : ℕ → ℕ → ℕ → ℚ)
    (y0 : ℕ → ℕ → ℕ → ℕ → ℕ → ℚ) (dx dy dz c e : ℕ) : ℚ :=
  y0 dx dy dz c e +
    if dx < D1D ∧ dy < D1D ∧ dz < D1D ∧ c < 3 ∧ e < NE then
      diagTemp3D Q1D B G D e dx dy dz
    else 0

/-- Embedding of the runtime-sized `PAVectorDiffusionDiagonal3D` kernel with
its `MFEM_VERIFY` precondition checks on `D1D` and `Q1D`. -/
def PAVectorDiffusionDiagonal3D (maxD1D maxQ1D D1D Q1D NE : ℕ)
    (B G : ℕ → ℕ → ℚ) (D : ℕ → ℕ → ℕ → ℚ) (y0 : ℕ → ℕ → ℕ → ℕ → ℕ → ℚ) :
    Except String (ℕ → ℕ → ℕ → ℕ → ℕ → ℚ) :=
  if ¬(D1D ≤ maxD1D) then Except.error ""
  else if ¬(Q1D ≤ maxQ1D) then Except.error ""
  else Except.ok (diag3DOut D1D Q1D NE B G D y0)

/-- Embedding of the `PAVectorDiffusionAssembleDiagonal` dispatch routine:
`dim == 2` and `dim == 3` invoke the corresponding kernel (2D and 3D outputs
are distinguished by a sum type), anything else hits
`MFEM_ABORT("Dimension not implemented.")`. -/
def PAVectorDiffusionAssembleDiagonal (dim maxD1D maxQ1D D1D Q1D NE : ℕ)
    (B G : ℕ → ℕ → ℚ) (D : ℕ → ℕ → ℕ → ℚ)
    (y2 : ℕ → ℕ → ℕ → ℕ → ℚ) (y3 : ℕ → ℕ → ℕ → ℕ → ℕ → ℚ) :
    Except String ((ℕ → ℕ → ℕ → ℕ → ℚ) ⊕ (ℕ → ℕ → ℕ → ℕ → ℕ → ℚ)) :=
  if dim = 2 then
    Sum.inl <$> PAVectorDiffusionDiagonal2D maxD1D maxQ1D D1D Q1D NE B G D y2
  else if dim = 3 then
    Sum.inr <$> PAVectorDiffusionDiagonal3D maxD1D maxQ1D D1D Q1D NE B G D y3
  else Except.error "Dimension not implemented."

/-- Unit nodal vector of the 2D layout `(dx,dy,c,e)`: value `1` at the dof
`(dx0,dy0)` of component `c0` of element `e0`, `0` elsewhere. -/
def unit2D (dx0 dy0 c0 e0 dx dy c e : ℕ) : ℚ :=
  if dx = dx0 ∧ dy = dy0 ∧ c = c0 ∧ e = e0 then 1 else 0

/-- Unit nodal vector of the 3D layout `(dx,dy,dz,c,e)`. -/
def unit3D (dx0 dy0 dz0 c0 e0 dx dy dz c e : ℕ) : ℚ :=
  if dx = dx0 ∧ dy = dy0 ∧ dz = dz0 ∧ c = c0 ∧ e = e0 then 1 else 0

/-- Euclidean inner product of two nodal vectors in the 2D layout
`(D1D, D1D, VDIM, NE)`. -/
def dot2D (D1D VDIM NE : ℕ) (u v : ℕ → ℕ → ℕ → ℕ → ℚ) : ℚ :=
  ∑ e ∈ range NE, ∑ c ∈ range VDIM, ∑ dy ∈ range D1D, ∑ dx ∈ range D1D,
    u dx dy c e * v dx dy c e

/-- Euclidean inner product of two nodal vectors in the 3D layout
`(D1D, D1D, D1D, 3, NE)`. -/
def dot3D (D1D NE : ℕ) (u v : ℕ → ℕ → ℕ → ℕ → ℕ → ℚ) : ℚ :=
  ∑ e ∈ range NE, ∑ c ∈ range 3, ∑ dz ∈ range D1D, ∑ dy ∈ range D1D,
    ∑ dx ∈ range D1D, u dx dy dz c e * v dx dy dz c e

/-- Collapse of a sum against a guarded unit entry: only the index `i` (when
the side condition `P` holds) survives. -/
theorem sum_ite_unit {n i : ℕ} (hi : i < n) (P : Prop) [Decidable P]
    (a : ℚ) (f : ℕ → ℚ) :
    ∑ d ∈ range n, (if d = i ∧ P then a else 0) * f d =
      if P then a * f i else 0 := by
  by_cases hP : P
  · simp only [hP, and_true, if_pos]
    rw [Finset.sum_eq_single i]
    · simp
    · intro b _ hb
      simp [hb]
    · intro hni
      exact absurd (Finset.mem_range.mpr hi) hni
  · simp [hP]

/-- Rotation of the first summation of a triple `range` sum to the inside. -/
theorem sum_rot3 {n1 n2 n3 : ℕ} (f : ℕ → ℕ → ℕ → ℚ) :
    (∑ a ∈ range n1, ∑ b ∈ range n2, ∑ c ∈ range n3, f a b c) =
      ∑ b ∈ range n2, ∑ c ∈ range n3, ∑ a ∈ range n1, f a b c := by
  rw [Finset.sum_comm]
  exact Finset.sum_congr rfl fun b _ => Finset.sum_comm

/-- Rotation of the first summation of a quadruple `range` sum to the
inside. -/
theorem sum_rot4 {n1 n2 n3 n4 : ℕ} (f : ℕ → ℕ → ℕ → ℕ → ℚ) :
    (∑ a ∈ range n1, ∑ b ∈ range n2, ∑ c ∈ range n3, ∑ d ∈ range n4,
        f a b c d) =
      ∑ b ∈ range n2, ∑ c ∈ range n3, ∑ d ∈ range n4, ∑ a ∈ range n1,
        f a b c d := by
  rw [Finset.sum_comm]
  exact Finset.sum_congr rfl fun b _ => sum_rot3 fun a c d => f a b c d

/-- Rotation of the first summation of a sextuple `range` sum to the
inside. -/
theorem sum_rot6 {n1 n2 n3 n4 n5 n6 : ℕ} (f : ℕ → ℕ → ℕ → ℕ → ℕ → ℕ → ℚ) :
    (∑ a ∈ range n1, ∑ b ∈ range n2, ∑ c ∈ range n3, ∑ d ∈ range n4,
        ∑ i ∈ range n5, ∑ j ∈ range n6, f a b c d i j) =
      ∑ b ∈ range n2, ∑ c ∈ range n3, ∑ d ∈ range n4, ∑ i ∈ range n5,
        ∑ j ∈ range n6, ∑ a ∈ range n1, f a b c d i j := by
  rw [Finset.sum_comm]
  refine Finset.sum_congr rfl fun b _ => ?_
  rw [Finset.sum_comm]
  refine Finset.sum_congr rfl fun c _ => ?_
  exact sum_rot4 fun a d i j => f a b c d i j

/-- Exchange of a `(dy,dx)` double sum with a `(qy,qx)` double sum. -/
theorem sum_swap22 {n m : ℕ} (f : ℕ → ℕ → ℕ → ℕ → ℚ) :
    (∑ b ∈ range n, ∑ a ∈ range n, ∑ q ∈ range m, ∑ p ∈ range m, f a b p q) =
      ∑ q ∈ range m, ∑ p ∈ range m, ∑ b ∈ range n, ∑ a ∈ range n,
        f a b p q :=
  (sum_rot4 fun b a q p => f a b p q).trans
    (sum_rot4 fun a q p b => f a b p q)

/-- Exchange of a `(dz,dy,dx)` triple sum with a `(qz,qy,qx)` triple sum. -/
theorem sum_swap33 {n m : ℕ} (f : ℕ → ℕ → ℕ → ℕ → ℕ → ℕ → ℚ) :
    (∑ c ∈ range n, ∑ b ∈ range n, ∑ a ∈ range n,
        ∑ r ∈ range m, ∑ q ∈ range m, ∑ p ∈ range m, f a b c p q r) =
      ∑ r ∈ range m, ∑ q ∈ range m, ∑ p ∈ range m,
        ∑ c ∈ range n, ∑ b ∈ range n, ∑ a ∈ range n, f a b c p q r :=
  ((sum_rot6 fun c b a r q p => f a b c p q r).trans
    (sum_rot6 fun b a r q p c => f a b c p q r)).trans
    (sum_rot6 fun a r q p c b => f a b c p q r)

/-- The flat index of the `(q,e)` entry of a `Reshape(c, NQ, NE)` view stays
inside the buffer. -/
theorem flatIdx_lt {NQ NE q e : ℕ} (hq : q < NQ) (he : e < NE) :
    q + NQ * e < NQ * NE := by
  have h1 : q + NQ * e < NQ * (1 + e) := by
    rw [Nat.mul_add, Nat.mul_one]
    exact Nat.add_lt_add_right hq _
  exact lt_of_lt_of_le h1 (Nat.mul_le_mul_left NQ (by omega))

/-- C1: for every element `e < NE` and quadrature point `q < Q1D^2`, the 2D
co-dimension-0 setup kernel writes
`D(q,0..2,e) = (c_detJ*(J12^2+J22^2), -c_detJ*(J12*J11+J22*J21),
c_detJ*(J11^2+J21^2))` with `c_detJ = W[q]*C1/(J11*J22-J21*J12)`, where `C1`
is the sample `C(q,e)` when the coefficient array has size `NQ*NE`, and the
single stored value when it has size `1`. -/
theorem setup2D_entries (Q1D NE : ℕ) (W : ℕ → ℚ) (J : ℕ → ℕ → ℕ → ℕ → ℚ)
    (c : CoeffVec) (q e : ℕ) (hq : q < Q1D * Q1D) (he : e < NE) :
    (c.size = 1 →
      PAVectorDiffusionSetup2D Q1D NE W J c q 0 e =
        W q * c.data 0 / (J q 0 0 e * J q 1 1 e - J q 1 0 e * J q 0 1 e) *
          (J q 0 1 e * J q 0 1 e + J q 1 1 e * J q 1 1 e) ∧
      PAVectorDiffusionSetup2D Q1D NE W J c q 1 e =
        -(W q * c.data 0 / (J q 0 0 e * J q 1 1 e - J q 1 0 e * J q 0 1 e) *
          (J q 0 1 e * J q 0 0 e + J q 1 1 e * J q 1 0 e)) ∧
      PAVectorDiffusionSetup2D Q1D NE W J c q 2 e =
        W q * c.data 0 / (J q 0 0 e * J q 1 1 e - J q 1 0 e * J q 0 1 e) *
          (J q 0 0 e * J q 0 0 e + J q 1 0 e * J q 1 0 e)) ∧
    (c.size = Q1D * Q1D * NE →
      PAVectorDiffusionSetup2D Q1D NE W J c q 0 e =
        W q * c.data (q + Q1D * Q1D * e) /
            (J q 0 0 e * J q 1 1 e - J q 1 0 e * J q 0 1 e) *
          (J q 0 1 e * J q 0 1 e + J q 1 1 e * J q 1 1 e) ∧
      PAVectorDiffusionSetup2D Q1D NE W J c q 1 e =
        -(W q * c.data (q + Q1D * Q1D * e) /
            (J q 0 0 e * J q 1 1 e - J q 1 0 e * J q 0 1 e) *
          (J q 0 1 e * J q 0 0 e + J q 1 1 e * J q 1 0 e)) ∧
      PAVectorDiffusionSetup2D Q1D NE W J c q 2 e =
        W q * c.data (q + Q1D * Q1D * e) /
            (J q 0 0 e * J q 1 1 e - J q 1 0 e * J q 0 1 e) *
          (J q 0 0 e * J q 0 0 e + J q 1 0 e * J q 1 0 e)) := by
  constructor
  · intro hc
    refine ⟨?_, ?_, ?_⟩ <;>
      simp [PAVectorDiffusionSetup2D, coeffAt, hq, he, hc]
  · intro hc
    by_cases h1 : c.size = 1
    · have hprod : Q1D * Q1D * NE = 1 := hc.symm.trans h1
      have hle : Q1D * Q1D ≤ 1 := Nat.le_of_dvd Nat.one_pos ⟨NE, hprod.symm⟩
      have hprod' : NE * (Q1D * Q1D) = 1 := by rw [Nat.mul_comm]; exact hprod
      have hle2 : NE ≤ 1 := Nat.le_of_dvd Nat.one_pos ⟨Q1D * Q1D, hprod'.symm⟩
      have hq0 : q = 0 := by omega
      have he0 : e = 0 := by omega
      subst hq0; subst he0
      refine ⟨?_, ?_, ?_⟩ <;>
        simp [PAVectorDiffusionSetup2D, coeffAt, hq, he, h1]
    · refine ⟨?_, ?_, ?_⟩ <;>
        simp [PAVectorDiffusionSetup2D, coeffAt, hq, he, h1]

/-- Witness for C1 at `Q1D = 1`, `NE = 1`, `W = 1`, `J = diag(1,2)`, constant
coefficient `1`: the kernel produces `(2, 0, 1/2)`. -/
theorem setup2D_entries_witness :
    PAVectorDiffusionSetup2D 1 1 (fun _ => 1)
        (fun _ r col _ => if r = 0 ∧ col = 0 then 1
          else if r = 1 ∧ col = 1 then 2 else 0)
        ⟨1, fun _ => 1⟩ 0 0 0 = 2 ∧
    PAVectorDiffusionSetup2D 1 1 (fun _ => 1)
        (fun _ r col _ => if r = 0 ∧ col = 0 then 1
          else if r = 1 ∧ col = 1 then 2 else 0)
        ⟨1, fun _ => 1⟩ 0 1 0 = 0 ∧
    PAVectorDiffusionSetup2D 1 1 (fun _ => 1)
        (fun _ r col _ => if r = 0 ∧ col = 0 then 1
          else if r = 1 ∧ col = 1 then 2 else 0)
        ⟨1, fun _ => 1⟩ 0 2 0 = 1 / 2 := by
  have h := (setup2D_entries 1 1 (fun _ => 1)
      (fun _ r col _ => if r = 0 ∧ col = 0 then 1
        else if r = 1 ∧ col = 1 then 2 else 0)
      ⟨1, fun _ => 1⟩ 0 0 (by norm_num) (by norm_num)).1 rfl
  refine ⟨h.1.trans (by norm_num), h.2.1.trans (by norm_num),
    h.2.2.trans (by norm_num)⟩

/-- C6: invoking a setup kernel with a full coefficient array (size `NQ*NE`)
whose entries all equal `k` produces the same output as invoking it with the
compressed size-1 array storing `k`, for both the 2D and the 3D kernel. -/
theorem setup_const_coeff_equiv (Q1D NE : ℕ) (k : ℚ) (W : ℕ → ℚ)
    (J2 J3 : ℕ → ℕ → ℕ → ℕ → ℚ) (cf2 cf3 : CoeffVec)
    (hs2 : cf2.size = Q1D * Q1D * NE)
    (hd2 : ∀ m < Q1D * Q1D * NE, cf2.data m = k)
    (hs3 : cf3.size = Q1D * Q1D * Q1D * NE)
    (hd3 : ∀ m < Q1D * Q1D * Q1D * NE, cf3.data m = k) (q i e : ℕ) :
    PAVectorDiffusionSetup2D Q1D NE W J2 cf2 q i e =
      PAVectorDiffusionSetup2D Q1D NE W J2 ⟨1, fun _ => k⟩ q i e ∧
    PAVectorDiffusionSetup3D Q1D NE W J3 cf3 q i e =
      PAVectorDiffusionSetup3D Q1D NE W J3 ⟨1, fun _ => k⟩ q i e := by
  have key : ∀ (NQ : ℕ) (cf : CoeffVec), cf.size = NQ * NE →
      (∀ m < NQ * NE, cf.data m = k) → ∀ hq : q < NQ, ∀ he : e < NE,
      coeffAt NQ cf q e = k := by
    intro NQ cf hs hd hq he
    unfold coeffAt
    by_cases h1 : cf.size = 1
    · have hprod : NQ * NE = 1 := hs.symm.trans h1
      exact (if_pos h1).trans (hd 0 (by omega))
    · exact (if_neg h1).trans (hd _ (flatIdx_lt hq he))
  constructor
  · unfold PAVectorDiffusionSetup2D
    by_cases hqe : q < Q1D * Q1D ∧ e < NE
    · rw [if_pos hqe, if_pos hqe, key (Q1D * Q1D) cf2 hs2 hd2 hqe.1 hqe.2]
      simp [coeffAt]
    · rw [if_neg hqe, if_neg hqe]
  · unfold PAVectorDiffusionSetup3D
    by_cases hqe : q < Q1D * Q1D * Q1D ∧ e < NE
    · rw [if_pos hqe, if_pos hqe, key (Q1D * Q1D * Q1D) cf3 hs3 hd3 hqe.1 hqe.2]
      simp [coeffAt]
    · rw [if_neg hqe, if_neg hqe]

/-- Witness for C6 at `Q1D = 1`, `NE = 2`, coefficient value `5`. -/
theorem setup_const_coeff_equiv_witness :
    PAVectorDiffusionSetup2D 1 2 (fun _ => 1) (fun _ _ _ _ => 1)
        ⟨2, fun _ => 5⟩ 0 0 1 =
      PAVectorDiffusionSetup2D 1 2 (fun _ => 1) (fun _ _ _ _ => 1)
        ⟨1, fun _ => 5⟩ 0 0 1 ∧
    PAVectorDiffusionSetup3D 1 2 (fun _ => 1) (fun _ _ _ _ => 1)
        ⟨2, fun _ => 5⟩ 0 0 1 =
      PAVectorDiffusionSetup3D 1 2 (fun _ => 1) (fun _ _ _ _ => 1)
        ⟨1, fun _ => 5⟩ 0 0 1 :=
  setup_const_coeff_equiv 1 2 5 (fun _ => 1) (fun _ _ _ _ => 1)
    (fun _ _ _ _ => 1) ⟨2, fun _ => 5⟩ ⟨2, fun _ => 5⟩ rfl
    (fun _ _ => rfl) rfl (fun _ _ => rfl) 0 0 1

/-- Determinant of a 3x3 matrix by cofactor expansion along the first row,
used to state the claim about `PAVectorDiffusionSetup3D`. -/
def det3 (M : ℕ → ℕ → ℚ) : ℚ :=
  M 0 0 * (M 1 1 * M 2 2 - M 1 2 * M 2 1) -
    M 0 1 * (M 1 0 * M 2 2 - M 1 2 * M 2 0) +
    M 0 2 * (M 1 0 * M 2 1 - M 1 1 * M 2 0)

/-- Adjugate (transpose of the cofactor matrix) of a 3x3 matrix, used to
state the claim about `PAVectorDiffusionSetup3D`. -/
def adj3 (M : ℕ → ℕ → ℚ) (r c : ℕ) : ℚ :=
  if r = 0 then
    if c = 0 then M 1 1 * M 2 2 - M 1 2 * M 2 1
    else if c = 1 then -(M 0 1 * M 2 2 - M 0 2 * M 2 1)
    else if c = 2 then M 0 1 * M 1 2 - M 0 2 * M 1 1
    else 0
  else if r = 1 then
    if c = 0 then -(M 1 0 * M 2 2 - M 1 2 * M 2 0)
    else if c = 1 then M 0 0 * M 2 2 - M 0 2 * M 2 0
    else if c = 2 then -(M 0 0 * M 1 2 - M 0 2 * M 1 0)
    else 0
  else if r = 2 then
    if c = 0 then M 1 0 * M 2 1 - M 1 1 * M 2 0
    else if c = 1 then -(M 0 0 * M 2 1 - M 0 1 * M 2 0)
    else if c = 2 then M 0 0 * M 1 1 - M 0 1 * M 1 0
    else 0
  else 0

/-- Entry `(r,c)` of `A * Aᵀ` where `A = adj3 M`. -/
def adjAAT (M : ℕ → ℕ → ℚ) (r c : ℕ) : ℚ :=
  adj3 M r 0 * adj3 M c 0 + adj3 M r 1 * adj3 M c 1 + adj3 M r 2 * adj3 M c 2

/-- Statement abbreviation for claim C2: the six stored entries of
`PAVectorDiffusionSetup3D` at `(q,e)` equal `W[q]*C1/detJ` times the
upper-triangle entries `(1,1),(2,1),(3,1),(2,2),(3,2),(3,3)` of
`adj(J) * adj(J)`-transpose. -/
def Setup3DAdjugateSpec (Q1D NE : ℕ) (W : ℕ → ℚ) (J : ℕ → ℕ → ℕ → ℕ → ℚ)
    (c : CoeffVec) (q e : ℕ) (C1 : ℚ) : Prop :=
  PAVectorDiffusionSetup3D Q1D NE W J c q 0 e =
    W q * C1 / det3 (fun a b => J q a b e) * adjAAT (fun a b => J q a b e) 0 0 ∧
  PAVectorDiffusionSetup3D Q1D NE W J c q 1 e =
    W q * C1 / det3 (fun a b => J q a b e) * adjAAT (fun a b => J q a b e) 1 0 ∧
  PAVectorDiffusionSetup3D Q1D NE W J c q 2 e =
    W q * C1 / det3 (fun a b => J q a b e) * adjAAT (fun a b => J q a b e) 2 0 ∧
  PAVectorDiffusionSetup3D Q1D NE W J c q 3 e =
    W q * C1 / det3 (fun a b => J q a b e) * adjAAT (fun a b => J q a b e) 1 1 ∧
  PAVectorDiffusionSetup3D Q1D NE W J c q 4 e =
    W q * C1 / det3 (fun a b => J q a b e) * adjAAT (fun a b => J q a b e) 2 1 ∧
  PAVectorDiffusionSetup3D Q1D NE W J c q 5 e =
    W q * C1 / det3 (fun a b => J q a b e) * adjAAT (fun a b => J q a b e) 2 2

/-- C2: for every element `e < NE` and quadrature point `q < Q1D^3`, the 3D
setup kernel writes `D(q,0..5,e) = c_detJ * (A*Aᵀ)` at the upper-triangle
positions `(1,1),(2,1),(3,1),(2,2),(3,2),(3,3)`, where `A = adj(J)` is the
adjugate of the Jacobian at `(q,e)`, `c_detJ = W[q]*C1/detJ` with `detJ` the
3x3 determinant, and `C1` is the per-point sample or the single stored value
according to the coefficient size.  In particular, for `J = diag(2,2,2)` and
constant coefficient `1`, `D(q,·,e) = (2w, 0, 0, 2w, 0, 2w)` with
`w = W[q]`. -/
theorem setup3D_entries (Q1D NE : ℕ) (W : ℕ → ℚ) (J : ℕ → ℕ → ℕ → ℕ → ℚ)
    (c : CoeffVec) (q e : ℕ) (hq : q < Q1D * Q1D * Q1D) (he : e < NE) :
    (c.size = 1 → Setup3DAdjugateSpec Q1D NE W J c q e (c.data 0)) ∧
    (c.size = Q1D * Q1D * Q1D * NE →
      Setup3DAdjugateSpec Q1D NE W J c q e
        (c.data (q + Q1D * Q1D * Q1D * e))) ∧
    ((∀ a b, a < 3 → b < 3 → J q a b e = if a = b then 2 else 0) →
      c.size = 1 → c.data 0 = 1 →
      PAVectorDiffusionSetup3D Q1D NE W J c q 0 e = 2 * W q ∧
      PAVectorDiffusionSetup3D Q1D NE W J c q 1 e = 0 ∧
      PAVectorDiffusionSetup3D Q1D NE W J c q 2 e = 0 ∧
      PAVectorDiffusionSetup3D Q1D NE W J c q 3 e = 2 * W q ∧
      PAVectorDiffusionSetup3D Q1D NE W J c q 4 e = 0 ∧
      PAVectorDiffusionSetup3D Q1D NE W J c q 5 e = 2 * W q) := by
  have hqe : q < Q1D * Q1D * Q1D ∧ e < NE := ⟨hq, he⟩
  have main : ∀ C1 : ℚ, coeffAt (Q1D * Q1D * Q1D) c q e = C1 →
      Setup3DAdjugateSpec Q1D NE W J c q e C1 := by
    intro C1 hC1
    refine ⟨?_, ?_, ?_, ?_, ?_, ?_⟩ <;>
      (simp only [PAVectorDiffusionSetup3D, if_pos hqe, hC1]
       norm_num [det3, adjAAT, adj3]
       ring)
  refine ⟨fun hc => main (c.data 0) (by simp [coeffAt, hc]),
    fun hc => ?_, fun hJ hc h1 => ?_⟩
  · by_cases h1 : c.size = 1
    · have hprod : Q1D * Q1D * Q1D * NE = 1 := hc.symm.trans h1
      have hle : Q1D * Q1D * Q1D ≤ 1 :=
        Nat.le_of_dvd Nat.one_pos ⟨NE, hprod.symm⟩
      have hprod2 : NE * (Q1D * Q1D * Q1D) = 1 := by
        rw [Nat.mul_comm]; exact hprod
      have hle2 : NE ≤ 1 :=
        Nat.le_of_dvd Nat.one_pos ⟨Q1D * Q1D * Q1D, hprod2.symm⟩
      have hq0 : q = 0 := by omega
      have he0 : e = 0 := by omega
      refine main _ ?_
      simp [coeffAt, h1, hq0, he0]
    · exact main _ (by simp [coeffAt, h1])
  · have h00 := hJ 0 0 (by norm_num) (by norm_num)
    have h01 := hJ 0 1 (by norm_num) (by norm_num)
    have h02 := hJ 0 2 (by norm_num) (by norm_num)
    have h10 := hJ 1 0 (by norm_num) (by norm_num)
    have h11 := hJ 1 1 (by norm_num) (by norm_num)
    have h12 := hJ 1 2 (by norm_num) (by norm_num)
    have h20 := hJ 2 0 (by norm_num) (by norm_num)
    have h21 := hJ 2 1 (by norm_num) (by norm_num)
    have h22 := hJ 2 2 (by norm_num) (by norm_num)
    norm_num at h00 h01 h02 h10 h11 h12 h20 h21 h22
    refine ⟨?_, ?_, ?_, ?_, ?_, ?_⟩ <;>
      (simp only [PAVectorDiffusionSetup3D, coeffAt, hc, if_pos hqe, h1,
        h00, h01, h02, h10, h11, h12, h20, h21, h22]
       norm_num
       try ring)

/-- Witness for C2: the `J = diag(2,2,2)`, coefficient `1` scenario at
`Q1D = 1`, `NE = 1`, `W = 3` gives `D = (6, 0, 0, 6, 0, 6)`. -/
theorem setup3D_entries_witness :
    PAVectorDiffusionSetup3D 1 1 (fun _ => 3)
        (fun _ a b _ => if a = b then 2 else 0) ⟨1, fun _ => 1⟩ 0 0 0 = 6 ∧
    PAVectorDiffusionSetup3D 1 1 (fun _ => 3)
        (fun _ a b _ => if a = b then 2 else 0) ⟨1, fun _ => 1⟩ 0 1 0 = 0 ∧
    PAVectorDiffusionSetup3D 1 1 (fun _ => 3)
        (fun _ a b _ => if a = b then 2 else 0) ⟨1, fun _ => 1⟩ 0 2 0 = 0 ∧
    PAVectorDiffusionSetup3D 1 1 (fun _ => 3)
        (fun _ a b _ => if a = b then 2 else 0) ⟨1, fun _ => 1⟩ 0 3 0 = 6 ∧
    PAVectorDiffusionSetup3D 1 1 (fun _ => 3)
        (fun _ a b _ => if a = b then 2 else 0) ⟨1, fun _ => 1⟩ 0 4 0 = 0 ∧
    PAVectorDiffusionSetup3D 1 1 (fun _ => 3)
        (fun _ a b _ => if a = b then 2 else 0) ⟨1, fun _ => 1⟩ 0 5 0 = 6 := by
  have h := (setup3D_entries 1 1 (fun _ => 3)
      (fun _ a b _ => if a = b then 2 else 0) ⟨1, fun _ => 1⟩ 0 0
      (by norm_num) (by norm_num)).2.2 (fun a b _ _ => rfl) rfl rfl
  exact ⟨h.1.trans (by norm_num), h.2.1, h.2.2.1,
    h.2.2.2.1.trans (by norm_num), h.2.2.2.2.1,
    h.2.2.2.2.2.trans (by norm_num)⟩

/-- Statement abbreviation for claim C3: the three stored entries of the
surface setup at `(q,e)` are `(αG, -αF, αE)` where `E`, `G` are the squared
norms of the two Jacobian columns, `F` their dot product and
`α = W[q]*C1/sqrt(EG - F²)`. -/
def SurfaceSpec (Q1D NE : ℕ) (sq : ℚ → ℚ) (W : ℕ → ℚ)
    (J : ℕ → ℕ → ℕ → ℕ → ℚ) (c : CoeffVec) (q e : ℕ) (C1 : ℚ) : Prop :=
  VectorDiffusionSetupSurface Q1D NE sq W J c q 0 e =
    W q * C1 /
        sq ((J q 0 0 e * J q 0 0 e + J q 1 0 e * J q 1 0 e +
              J q 2 0 e * J q 2 0 e) *
            (J q 0 1 e * J q 0 1 e + J q 1 1 e * J q 1 1 e +
              J q 2 1 e * J q 2 1 e) -
            (J q 0 0 e * J q 0 1 e + J q 1 0 e * J q 1 1 e +
              J q 2 0 e * J q 2 1 e) *
            (J q 0 0 e * J q 0 1 e + J q 1 0 e * J q 1 1 e +
              J q 2 0 e * J q 2 1 e)) *
      (J q 0 1 e * J q 0 1 e + J q 1 1 e * J q 1 1 e +
        J q 2 1 e * J q 2 1 e) ∧
  VectorDiffusionSetupSurface Q1D NE sq W J c q 1 e =
    -(W q * C1 /
        sq ((J q 0 0 e * J q 0 0 e + J q 1 0 e * J q 1 0 e +
              J q 2 0 e * J q 2 0 e) *
            (J q 0 1 e * J q 0 1 e + J q 1 1 e * J q 1 1 e +
              J q 2 1 e * J q 2 1 e) -
            (J q 0 0 e * J q 0 1 e + J q 1 0 e * J q 1 1 e +
              J q 2 0 e * J q 2 1 e) *
            (J q 0 0 e * J q 0 1 e + J q 1 0 e * J q 1 1 e +
              J q 2 0 e * J q 2 1 e)) *
      (J q 0 0 e * J q 0 1 e + J q 1 0 e * J q 1 1 e +
        J q 2 0 e * J q 2 1 e)) ∧
  VectorDiffusionSetupSurface Q1D NE sq W J c q 2 e =
    W q * C1 /
        sq ((J q 0 0 e * J q 0 0 e + J q 1 0 e * J q 1 0 e +
              J q 2 0 e * J q 2 0 e) *
            (J q 0 1 e * J q 0 1 e + J q 1 1 e * J q 1 1 e +
              J q 2 1 e * J q 2 1 e) -
            (J q 0 0 e * J q 0 1 e + J q 1 0 e * J q 1 1 e +
              J q 2 0 e * J q 2 1 e) *
            (J q 0 0 e * J q 0 1 e + J q 1 0 e * J q 1 1 e +
              J q 2 0 e * J q 2 1 e)) *
      (J q 0 0 e * J q 0 0 e + J q 1 0 e * J q 1 0 e +
        J q 2 0 e * J q 2 0 e)

/-- C3: in the 2D-manifold-in-3D case, for every `e < NE` and `q < Q1D^2` the
surface setup writes `D(q,0..2,e) = (αG, -αF, αE)` with `E`, `G` the squared
norms of the Jacobian columns, `F` their dot product,
`α = W[q]*C1/sqrt(EG - F²)`, and `C1` the per-point sample or the single
stored value according to the coefficient size. -/
theorem setupSurface_entries (Q1D NE : ℕ) (sq : ℚ → ℚ) (W : ℕ → ℚ)
    (J : ℕ → ℕ → ℕ → ℕ → ℚ) (c : CoeffVec) (q e : ℕ)
    (hq : q < Q1D * Q1D) (he : e < NE) :
    (c.size = 1 → SurfaceSpec Q1D NE sq W J c q e (c.data 0)) ∧
    (c.size = Q1D * Q1D * NE →
      SurfaceSpec Q1D NE sq W J c q e (c.data (q + Q1D * Q1D * e))) := by
  have hqe : q < Q1D * Q1D ∧ e < NE := ⟨hq, he⟩
  have main : ∀ C1 : ℚ, coeffAt (Q1D * Q1D) c q e = C1 →
      SurfaceSpec Q1D NE sq W J c q e C1 := by
    intro C1 hC1
    refine ⟨?_, ?_, ?_⟩ <;>
      (simp only [VectorDiffusionSetupSurface, if_pos hqe, hC1]
       norm_num
       try tauto)
  refine ⟨fun hc => main (c.data 0) (by simp [coeffAt, hc]), fun hc => ?_⟩
  by_cases h1 : c.size = 1
  · have hprod : Q1D * Q1D * NE = 1 := hc.symm.trans h1
    have hle : Q1D * Q1D ≤ 1 := Nat.le_of_dvd Nat.one_pos ⟨NE, hprod.symm⟩
    have hprod2 : NE * (Q1D * Q1D) = 1 := by rw [Nat.mul_comm]; exact hprod
    have hle2 : NE ≤ 1 := Nat.le_of_dvd Nat.one_pos ⟨Q1D * Q1D, hprod2.symm⟩
    have hq0 : q = 0 := by omega
    have he0 : e = 0 := by omega
    refine main _ ?_
    simp [coeffAt, h1, hq0, he0]
  · exact main _ (by simp [coeffAt, h1])

/-- Witness for C3 at `Q1D = 1`, `NE = 1`, columns `(1,0,0)` and `(0,1,0)`
(so `E = G = 1`, `F = 0`), square root modelled by the identity function,
`W = 1`, constant coefficient `2`: the kernel produces `(2, 0, 2)`. -/
theorem setupSurface_entries_witness :
    VectorDiffusionSetupSurface 1 1 (fun t => t) (fun _ => 1)
        (fun _ r col _ => if r = col then 1 else 0) ⟨1, fun _ => 2⟩
        0 0 0 = 2 ∧
    VectorDiffusionSetupSurface 1 1 (fun t => t) (fun _ => 1)
        (fun _ r col _ => if r = col then 1 else 0) ⟨1, fun _ => 2⟩
        0 1 0 = 0 ∧
    VectorDiffusionSetupSurface 1 1 (fun t => t) (fun _ => 1)
        (fun _ r col _ => if r = col then 1 else 0) ⟨1, fun _ => 2⟩
        0 2 0 = 2 := by
  have h := (setupSurface_entries 1 1 (fun t => t) (fun _ => 1)
      (fun _ r col _ => if r = col then 1 else 0) ⟨1, fun _ => 2⟩ 0 0
      (by norm_num) (by norm_num)).1 rfl
  exact ⟨h.1.trans (by norm_num), h.2.1.trans (by norm_num),
    h.2.2.trans (by norm_num)⟩

/-- C9: for `dim ∉ {2,3}` the setup dispatch and the diagonal dispatch abort
with a fatal error; for `dim ∈ {2,3}` they do not abort on this check and
invoke the corresponding 2D or 3D kernel. -/
theorem dispatch_dim_check (dim Q1D NE maxD1D maxQ1D D1D : ℕ) (W : ℕ → ℚ)
    (J : ℕ → ℕ → ℕ → ℕ → ℚ) (c : CoeffVec) (B G : ℕ → ℕ → ℚ)
    (D : ℕ → ℕ → ℕ → ℚ) (y2 : ℕ → ℕ → ℕ → ℕ → ℚ)
    (y3 : ℕ → ℕ → ℕ → ℕ → ℕ → ℚ) :
    (¬(dim = 2 ∨ dim = 3) →
      PAVectorDiffusionSetup dim Q1D NE W J c =
        Except.error "Dimension not supported." ∧
      PAVectorDiffusionAssembleDiagonal dim maxD1D maxQ1D D1D Q1D NE B G D
          y2 y3 =
        Except.error "Dimension not implemented.") ∧
    (dim = 2 →
      PAVectorDiffusionSetup dim Q1D NE W J c =
        Except.ok (PAVectorDiffusionSetup2D Q1D NE W J c) ∧
      PAVectorDiffusionAssembleDiagonal dim maxD1D maxQ1D D1D Q1D NE B G D
          y2 y3 =
        Sum.inl <$>
          PAVectorDiffusionDiagonal2D maxD1D maxQ1D D1D Q1D NE B G D y2) ∧
    (dim = 3 →
      PAVectorDiffusionSetup dim Q1D NE W J c =
        Except.ok (PAVectorDiffusionSetup3D Q1D NE W J c) ∧
      PAVectorDiffusionAssembleDiagonal dim maxD1D maxQ1D D1D Q1D NE B G D
          y2 y3 =
        Sum.inr <$>
          PAVectorDiffusionDiagonal3D maxD1D maxQ1D D1D Q1D NE B G D y3) := by
  refine ⟨fun h => ?_, fun h => ?_, fun h => ?_⟩
  · push_neg at h
    obtain ⟨h2, h3⟩ := h
    constructor
    · simp [PAVectorDiffusionSetup, h2, h3]
    · simp [PAVectorDiffusionAssembleDiagonal, h2, h3]
  · subst h
    constructor
    · simp [PAVectorDiffusionSetup]
    · simp [PAVectorDiffusionAssembleDiagonal]
  · subst h
    constructor
    · simp [PAVectorDiffusionSetup]
    · simp [PAVectorDiffusionAssembleDiagonal]

/-- Witness for C9 at `dim = 1`, `dim = 2` and `dim = 3` with size-1 data. -/
theorem dispatch_dim_check_witness :
    (PAVectorDiffusionSetup 1 1 1 (fun _ => 1) (fun _ _ _ _ => 1)
        ⟨1, fun _ => 1⟩ =
      Except.error "Dimension not supported." ∧
    PAVectorDiffusionAssembleDiagonal 1 4 4 1 1 1 (fun _ _ => 1)
        (fun _ _ => 1) (fun _ _ _ => 1) (fun _ _ _ _ => 0)
        (fun _ _ _ _ _ => 0) =
      Except.error "Dimension not implemented.") ∧
    (PAVectorDiffusionSetup 2 1 1 (fun _ => 1) (fun _ _ _ _ => 1)
        ⟨1, fun _ => 1⟩ =
      Except.ok (PAVectorDiffusionSetup2D 1 1 (fun _ => 1) (fun _ _ _ _ => 1)
        ⟨1, fun _ => 1⟩)) ∧
    (PAVectorDiffusionSetup 3 1 1 (fun _ => 1) (fun _ _ _ _ => 1)
        ⟨1, fun _ => 1⟩ =
      Except.ok (PAVectorDiffusionSetup3D 1 1 (fun _ => 1) (fun _ _ _ _ => 1)
        ⟨1, fun _ => 1⟩)) :=
  ⟨(dispatch_dim_check 1 1 1 4 4 1 (fun _ => 1) (fun _ _ _ _ => 1)
      ⟨1, fun _ => 1⟩ (fun _ _ => 1) (fun _ _ => 1) (fun _ _ _ => 1)
      (fun _ _ _ _ => 0) (fun _ _ _ _ _ => 0)).1 (by norm_num),
   ((dispatch_dim_check 2 1 1 4 4 1 (fun _ => 1) (fun _ _ _ _ => 1)
      ⟨1, fun _ => 1⟩ (fun _ _ => 1) (fun _ _ => 1) (fun _ _ _ => 1)
      (fun _ _ _ _ => 0) (fun _ _ _ _ _ => 0)).2.1 rfl).1,
   ((dispatch_dim_check 3 1 1 4 4 1 (fun _ => 1) (fun _ _ _ _ => 1)
      ⟨1, fun _ => 1⟩ (fun _ _ => 1) (fun _ _ => 1) (fun _ _ _ => 1)
      (fun _ _ _ _ => 0) (fun _ _ _ _ _ => 0)).2.2 rfl).1⟩

/-- C10: every apply/diagonal kernel aborts on entry when `D1D` or `Q1D`
exceeds the backend maximum, and otherwise passes the checks and computes its
output. -/
theorem kernel_size_checks (maxD1D maxQ1D D1D Q1D VDIM NE : ℕ)
    (B G Bt Gt : ℕ → ℕ → ℚ) (D : ℕ → ℕ → ℕ → ℚ)
    (x2 y2 y2d : ℕ → ℕ → ℕ → ℕ → ℚ) (x3 y3 y3d : ℕ → ℕ → ℕ → ℕ → ℕ → ℚ) :
    (maxD1D < D1D ∨ maxQ1D < Q1D →
      PAVectorDiffusionApply2D maxD1D maxQ1D D1D Q1D VDIM NE B G Bt Gt D
          x2 y2 = Except.error "" ∧
      PAVectorDiffusionApply3D maxD1D maxQ1D D1D Q1D NE B G Bt Gt D x3 y3 =
        Except.error "" ∧
      PAVectorDiffusionDiagonal2D maxD1D maxQ1D D1D Q1D NE B G D y2d =
        Except.error "" ∧
      PAVectorDiffusionDiagonal3D maxD1D maxQ1D D1D Q1D NE B G D y3d =
        Except.error "") ∧
    (D1D ≤ maxD1D → Q1D ≤ maxQ1D →
      PAVectorDiffusionApply2D maxD1D maxQ1D D1D Q1D VDIM NE B G Bt Gt D
          x2 y2 =
        Except.ok (apply2DOut D1D Q1D VDIM NE B G Bt Gt D x2 y2) ∧
      PAVectorDiffusionApply3D maxD1D maxQ1D D1D Q1D NE B G Bt Gt D x3 y3 =
        Except.ok (apply3DOut D1D Q1D NE B G Bt Gt D x3 y3) ∧
      PAVectorDiffusionDiagonal2D maxD1D maxQ1D D1D Q1D NE B G D y2d =
        Except.ok (diag2DOut D1D Q1D NE B G D y2d) ∧
      PAVectorDiffusionDiagonal3D maxD1D maxQ1D D1D Q1D NE B G D y3d =
        Except.ok (diag3DOut D1D Q1D NE B G D y3d)) := by
  constructor
  · intro h
    have hcase : ¬(D1D ≤ maxD1D) ∨ (D1D ≤ maxD1D ∧ ¬(Q1D ≤ maxQ1D)) := by
      omega
    refine ⟨?_, ?_, ?_, ?_⟩ <;>
      (first
        | unfold PAVectorDiffusionApply2D
        | unfold PAVectorDiffusionApply3D
        | unfold PAVectorDiffusionDiagonal2D
        | unfold PAVectorDiffusionDiagonal3D) <;>
      (rcases hcase with h1 | ⟨h1, h2⟩
       · rw [if_pos h1]
       · rw [if_neg (not_not_intro h1), if_pos h2])
  · intro h1 h2
    refine ⟨?_, ?_, ?_, ?_⟩ <;>
      simp [PAVectorDiffusionApply2D, PAVectorDiffusionApply3D,
        PAVectorDiffusionDiagonal2D, PAVectorDiffusionDiagonal3D, h1, h2]

/-- Witness for C10 at `maxD1D = maxQ1D = 4`: `D1D = 5` aborts, `D1D = Q1D
= 2` passes the checks. -/
theorem kernel_size_checks_witness :
    PAVectorDiffusionApply2D 4 4 5 2 2 1 (fun _ _ => 1) (fun _ _ => 1)
        (fun _ _ => 1) (fun _ _ => 1) (fun _ _ _ => 1) (fun _ _ _ _ => 1)
        (fun _ _ _ _ => 0) = Except.error "" ∧
    PAVectorDiffusionApply2D 4 4 2 2 2 1 (fun _ _ => 1) (fun _ _ => 1)
        (fun _ _ => 1) (fun _ _ => 1) (fun _ _ _ => 1) (fun _ _ _ _ => 1)
        (fun _ _ _ _ => 0) =
      Except.ok (apply2DOut 2 2 2 1 (fun _ _ => 1) (fun _ _ => 1)
        (fun _ _ => 1) (fun _ _ => 1) (fun _ _ _ => 1) (fun _ _ _ _ => 1)
        (fun _ _ _ _ => 0)) :=
  ⟨((kernel_size_checks 4 4 5 2 2 1 (fun _ _ => 1) (fun _ _ => 1)
      (fun _ _ => 1) (fun _ _ => 1) (fun _ _ _ => 1) (fun _ _ _ _ => 1)
      (fun _ _ _ _ => 0) (fun _ _ _ _ => 0) (fun _ _ _ _ _ => 1)
      (fun _ _ _ _ _ => 0) (fun _ _ _ _ _ => 0)).1 (by norm_num)).1,
   ((kernel_size_checks 4 4 2 2 2 1 (fun _ _ => 1) (fun _ _ => 1)
      (fun _ _ => 1) (fun _ _ => 1) (fun _ _ _ => 1) (fun _ _ _ _ => 1)
      (fun _ _ _ _ => 0) (fun _ _ _ _ => 0) (fun _ _ _ _ _ => 1)
      (fun _ _ _ _ _ => 0) (fun _ _ _ _ _ => 0)).2 (by norm_num)
      (by norm_num)).1⟩

/-- C7: for every input and every output dof position, the diagonal kernels
compute one scalar (`diagTemp2D` resp. `diagTemp3D`, independent of the
vector component) and accumulate that identical scalar into all `VDIM`
components of the output (`VDIM = 2` for the 2D kernel, `3` for the 3D
kernel). -/
theorem diag_broadcast (D1D Q1D NE : ℕ) (B G : ℕ → ℕ → ℚ)
    (D : ℕ → ℕ → ℕ → ℚ) (y2 : ℕ → ℕ → ℕ → ℕ → ℚ)
    (y3 : ℕ → ℕ → ℕ → ℕ → ℕ → ℚ) (dx dy dz c2 c3 e : ℕ)
    (hdx : dx < D1D) (hdy : dy < D1D) (hdz : dz < D1D)
    (hc2 : c2 < 2) (hc3 : c3 < 3) (he : e < NE) :
    diag2DOut D1D Q1D NE B G D y2 dx dy c2 e =
      y2 dx dy c2 e + diagTemp2D Q1D B G D e dx dy ∧
    diag3DOut D1D Q1D NE B G D y3 dx dy dz c3 e =
      y3 dx dy dz c3 e + diagTemp3D Q1D B G D e dx dy dz := by
  constructor
  · simp [diag2DOut, hdx, hdy, hc2, he]
  · simp [diag3DOut, hdx, hdy, hdz, hc3, he]

/-- Witness for C7 at `D1D = Q1D = NE = 1`, components `1` and `2`. -/
theorem diag_broadcast_witness :
    diag2DOut 1 1 1 (fun _ _ => 1) (fun _ _ => 1) (fun _ _ _ => 1)
        (fun _ _ _ _ => 0) 0 0 1 0 =
      0 + diagTemp2D 1 (fun _ _ => 1) (fun _ _ => 1) (fun _ _ _ => 1) 0 0 0 ∧
    diag3DOut 1 1 1 (fun _ _ => 1) (fun _ _ => 1) (fun _ _ _ => 1)
        (fun _ _ _ _ _ => 0) 0 0 0 2 0 =
      0 + diagTemp3D 1 (fun _ _ => 1) (fun _ _ => 1) (fun _ _ _ => 1)
        0 0 0 0 :=
  diag_broadcast 1 1 1 (fun _ _ => 1) (fun _ _ => 1) (fun _ _ _ => 1)
    (fun _ _ _ _ => 0) (fun _ _ _ _ _ => 0) 0 0 0 1 2 0
    (by norm_num) (by norm_num) (by norm_num) (by norm_num) (by norm_num)
    (by norm_num)

/-- The 2D apply contribution vanishes on the zero input vector. -/
theorem applyContrib2D_zero (D1D Q1D : ℕ) (B G Bt Gt : ℕ → ℕ → ℚ)
    (D : ℕ → ℕ → ℕ → ℚ) (dx dy c e : ℕ) :
    applyContrib2D D1D Q1D B G Bt Gt D (fun _ _ _ _ => 0) dx dy c e = 0 := by
  simp [applyContrib2D, a2u0, a2u1, a2grad0, a2grad1, a2gradX]

/-- The 3D apply contribution vanishes on the zero input vector. -/
theorem applyContrib3D_zero (D1D Q1D : ℕ) (B G Bt Gt : ℕ → ℕ → ℚ)
    (D : ℕ → ℕ → ℕ → ℚ) (dx dy dz c e : ℕ) :
    applyContrib3D D1D Q1D B G Bt Gt D (fun _ _ _ _ _ => 0) dx dy dz c e =
      0 := by
  simp [applyContrib3D, a3u0, a3u1, a3u2, a3grad0, a3grad1, a3grad2, a3gradX]

/-- C8: the apply and diagonal kernels mutate only the output vector, by pure
accumulation: the increment of every output entry is independent of the
initial contents of the output (stated as equality of increments over two
arbitrary initial states), and applying to the zero input vector leaves the
output unchanged. -/
theorem kernels_accumulate (D1D Q1D VDIM NE : ℕ) (B G Bt Gt : ℕ → ℕ → ℚ)
    (D : ℕ → ℕ → ℕ → ℚ) (x2 y2 y2a y2d y2e : ℕ → ℕ → ℕ → ℕ → ℚ)
    (x3 y3 y3a y3d y3e : ℕ → ℕ → ℕ → ℕ → ℕ → ℚ) (dx dy dz c e : ℕ) :
    (apply2DOut D1D Q1D VDIM NE B G Bt Gt D x2 y2 dx dy c e -
        y2 dx dy c e =
      apply2DOut D1D Q1D VDIM NE B G Bt Gt D x2 y2a dx dy c e -
        y2a dx dy c e) ∧
    apply2DOut D1D Q1D VDIM NE B G Bt Gt D (fun _ _ _ _ => 0) y2 dx dy c e =
      y2 dx dy c e ∧
    (apply3DOut D1D Q1D NE B G Bt Gt D x3 y3 dx dy dz c e -
        y3 dx dy dz c e =
      apply3DOut D1D Q1D NE B G Bt Gt D x3 y3a dx dy dz c e -
        y3a dx dy dz c e) ∧
    apply3DOut D1D Q1D NE B G Bt Gt D (fun _ _ _ _ _ => 0) y3 dx dy dz c e =
      y3 dx dy dz c e ∧
    (diag2DOut D1D Q1D NE B G D y2d dx dy c e - y2d dx dy c e =
      diag2DOut D1D Q1D NE B G D y2e dx dy c e - y2e dx dy c e) ∧
    (diag3DOut D1D Q1D NE B G D y3d dx dy dz c e - y3d dx dy dz c e =
      diag3DOut D1D Q1D NE B G D y3e dx dy dz c e - y3e dx dy dz c e) := by
  refine ⟨by simp [apply2DOut], ?_, by simp [apply3DOut], ?_,
    by simp [diag2DOut], by simp [diag3DOut]⟩
  · simp [apply2DOut, applyContrib2D_zero]
  · simp [apply3DOut, applyContrib3D_zero]

/-- Canonical form of the forward x-derivative: a double sum against the
weights `G(qx,·) B(qy,·)`. -/
theorem a2grad0_eq (D1D : ℕ) (B G : ℕ → ℕ → ℚ) (x : ℕ → ℕ → ℕ → ℕ → ℚ)
    (c e qy qx : ℕ) :
    a2grad0 D1D B G x c e qy qx =
      ∑ dy ∈ range D1D, ∑ dx ∈ range D1D,
        x dx dy c e * (G qx dx * B qy dy) := by
  unfold a2grad0 a2gradX
  simp only [Finset.sum_mul, mul_assoc]

/-- Canonical form of the forward y-derivative: a double sum against the
weights `B(qx,·) G(qy,·)`. -/
theorem a2grad1_eq (D1D : ℕ) (B G : ℕ → ℕ → ℚ) (x : ℕ → ℕ → ℕ → ℕ → ℚ)
    (c e qy qx : ℕ) :
    a2grad1 D1D B G x c e qy qx =
      ∑ dy ∈ range D1D, ∑ dx ∈ range D1D,
        x dx dy c e * (B qx dx * G qy dy) := by
  unfold a2grad1 a2gradX
  simp only [Finset.sum_mul, mul_assoc]

/-- Canonical form of the 2D apply contribution: a double quadrature sum of
the transformed gradient against the backward weights. -/
theorem applyContrib2D_eq (D1D Q1D : ℕ) (B G Bt Gt : ℕ → ℕ → ℚ)
    (D : ℕ → ℕ → ℕ → ℚ) (x : ℕ → ℕ → ℕ → ℕ → ℚ) (dx dy c e : ℕ) :
    applyContrib2D D1D Q1D B G Bt Gt D x dx dy c e =
      ∑ qy ∈ range Q1D, ∑ qx ∈ range Q1D,
        (a2u0 D1D Q1D B G D x c e qy qx * (Gt dx qx * Bt dy qy) +
         a2u1 D1D Q1D B G D x c e qy qx * (Bt dx qx * Gt dy qy)) := by
  unfold applyContrib2D
  simp only [Finset.sum_mul, ← Finset.sum_add_distrib]
  exact Finset.sum_congr rfl fun qy _ => Finset.sum_congr rfl fun qx _ => by
    ring

/-- Collapse of the x-stage of the 2D forward transform on a unit vector. -/
theorem a2gradX_unit (D1D : ℕ) (T : ℕ → ℕ → ℚ) (dx0 dy0 c0 e0 : ℕ)
    (hdx0 : dx0 < D1D) (dy c e qx : ℕ) :
    a2gradX D1D T (unit2D dx0 dy0 c0 e0) dy c e qx =
      if dy = dy0 ∧ c = c0 ∧ e = e0 then T qx dx0 else 0 := by
  unfold a2gradX unit2D
  rw [sum_ite_unit hdx0 (dy = dy0 ∧ c = c0 ∧ e = e0) 1 fun d => T qx d]
  simp

/-- Collapse of the 2D forward x-derivative on a unit vector at its own
component and element. -/
theorem a2grad0_unit (D1D : ℕ) (B G : ℕ → ℕ → ℚ) (dx0 dy0 c0 e0 : ℕ)
    (hdx0 : dx0 < D1D) (hdy0 : dy0 < D1D) (qy qx : ℕ) :
    a2grad0 D1D B G (unit2D dx0 dy0 c0 e0) c0 e0 qy qx =
      G qx dx0 * B qy dy0 := by
  unfold a2grad0
  simp only [a2gradX_unit D1D G dx0 dy0 c0 e0 hdx0]
  rw [sum_ite_unit hdy0 (True ∧ True) (G qx dx0) fun d => B qy d]
  simp

/-- Collapse of the 2D forward y-derivative on a unit vector at its own
component and element. -/
theorem a2grad1_unit (D1D : ℕ) (B G : ℕ → ℕ → ℚ) (dx0 dy0 c0 e0 : ℕ)
    (hdx0 : dx0 < D1D) (hdy0 : dy0 < D1D) (qy qx : ℕ) :
    a2grad1 D1D B G (unit2D dx0 dy0 c0 e0) c0 e0 qy qx =
      B qx dx0 * G qy dy0 := by
  unfold a2grad1
  simp only [a2gradX_unit D1D B dx0 dy0 c0 e0 hdx0]
  rw [sum_ite_unit hdy0 (True ∧ True) (B qx dx0) fun d => G qy d]
  simp

/-- The pointwise-multiplied gradient of a unit vector, component `0`. -/
theorem a2u0_unit (D1D Q1D : ℕ) (B G : ℕ → ℕ → ℚ) (D : ℕ → ℕ → ℕ → ℚ)
    (dx0 dy0 c0 e0 : ℕ) (hdx0 : dx0 < D1D) (hdy0 : dy0 < D1D) (qy qx : ℕ) :
    a2u0 D1D Q1D B G D (unit2D dx0 dy0 c0 e0) c0 e0 qy qx =
      D (qx + qy * Q1D) 0 e0 * (G qx dx0 * B qy dy0) +
        D (qx + qy * Q1D) 1 e0 * (B qx dx0 * G qy dy0) := by
  unfold a2u0
  rw [a2grad0_unit D1D B G dx0 dy0 c0 e0 hdx0 hdy0,
    a2grad1_unit D1D B G dx0 dy0 c0 e0 hdx0 hdy0]

/-- The pointwise-multiplied gradient of a unit vector, component `1`. -/
theorem a2u1_unit (D1D Q1D : ℕ) (B G : ℕ → ℕ → ℚ) (D : ℕ → ℕ → ℕ → ℚ)
    (dx0 dy0 c0 e0 : ℕ) (hdx0 : dx0 < D1D) (hdy0 : dy0 < D1D) (qy qx : ℕ) :
    a2u1 D1D Q1D B G D (unit2D dx0 dy0 c0 e0) c0 e0 qy qx =
      D (qx + qy * Q1D) 1 e0 * (G qx dx0 * B qy dy0) +
        D (qx + qy * Q1D) 2 e0 * (B qx dx0 * G qy dy0) := by
  unfold a2u1
  rw [a2grad0_unit D1D B G dx0 dy0 c0 e0 hdx0 hdy0,
    a2grad1_unit D1D B G dx0 dy0 c0 e0 hdx0 hdy0]

/-- Core of the 2D diagonal-consistency claim: the scalar computed by the
diagonal kernel at dof `(dx0,dy0)` equals the apply contribution on the unit
vector at that dof. -/
theorem diagTemp2D_eq_applyContrib (D1D Q1D : ℕ) (B G Bt Gt : ℕ → ℕ → ℚ)
    (D : ℕ → ℕ → ℕ → ℚ) (dx0 dy0 c0 e0 : ℕ)
    (hBt : ∀ d q, Bt d q = B q d) (hGt : ∀ d q, Gt d q = G q d)
    (hdx0 : dx0 < D1D) (hdy0 : dy0 < D1D) :
    diagTemp2D Q1D B G D e0 dx0 dy0 =
      applyContrib2D D1D Q1D B G Bt Gt D (unit2D dx0 dy0 c0 e0)
        dx0 dy0 c0 e0 := by
  rw [applyContrib2D_eq]
  unfold diagTemp2D dQD0 dQD1 dQD2
  simp only [Finset.mul_sum, ← Finset.sum_add_distrib]
  rw [Finset.sum_comm]
  refine Finset.sum_congr rfl fun qy _ => Finset.sum_congr rfl fun qx _ => ?_
  rw [a2u0_unit D1D Q1D B G D dx0 dy0 c0 e0 hdx0 hdy0,
    a2u1_unit D1D Q1D B G D dx0 dy0 c0 e0 hdx0 hdy0]
  simp only [hBt, hGt]
  ring

/-- Canonical form of the 3D forward x-derivative. -/
theorem a3grad0_eq (D1D : ℕ) (B G : ℕ → ℕ → ℚ) (x : ℕ → ℕ → ℕ → ℕ → ℕ → ℚ)
    (c e qz qy qx : ℕ) :
    a3grad0 D1D B G x c e qz qy qx =
      ∑ dz ∈ range D1D, ∑ dy ∈ range D1D, ∑ dx ∈ range D1D,
        x dx dy dz c e * (G qx dx * B qy dy * B qz dz) := by
  unfold a3grad0 a3gradX
  simp only [Finset.sum_mul]
  exact Finset.sum_congr rfl fun dz _ => Finset.sum_congr rfl fun dy _ =>
    Finset.sum_congr rfl fun dx _ => by ring

/-- Canonical form of the 3D forward y-derivative. -/
theorem a3grad1_eq (D1D : ℕ) (B G : ℕ → ℕ → ℚ) (x : ℕ → ℕ → ℕ → ℕ → ℕ → ℚ)
    (c e qz qy qx : ℕ) :
    a3grad1 D1D B G x c e qz qy qx =
      ∑ dz ∈ range D1D, ∑ dy ∈ range D1D, ∑ dx ∈ range D1D,
        x dx dy dz c e * (B qx dx * G qy dy * B qz dz) := by
  unfold a3grad1 a3gradX
  simp only [Finset.sum_mul]
  exact Finset.sum_congr rfl fun dz _ => Finset.sum_congr rfl fun dy _ =>
    Finset.sum_congr rfl fun dx _ => by ring

/-- Canonical form of the 3D forward z-derivative. -/
theorem a3grad2_eq (D1D : ℕ) (B G : ℕ → ℕ → ℚ) (x : ℕ → ℕ → ℕ → ℕ → ℕ → ℚ)
    (c e qz qy qx : ℕ) :
    a3grad2 D1D B G x c e qz qy qx =
      ∑ dz ∈ range D1D, ∑ dy ∈ range D1D, ∑ dx ∈ range D1D,
        x dx dy dz c e * (B qx dx * B qy dy * G qz dz) := by
  unfold a3grad2 a3gradX
  simp only [Finset.sum_mul]
  exact Finset.sum_congr rfl fun dz _ => Finset.sum_congr rfl fun dy _ =>
    Finset.sum_congr rfl fun dx _ => by ring

/-- Canonical form of the 3D apply contribution: a triple quadrature sum of
the transformed gradient against the backward weights. -/
theorem applyContrib3D_eq (D1D Q1D : ℕ) (B G Bt Gt : ℕ → ℕ → ℚ)
    (D : ℕ → ℕ → ℕ → ℚ) (x : ℕ → ℕ → ℕ → ℕ → ℕ → ℚ) (dx dy dz c e : ℕ) :
    applyContrib3D D1D Q1D B G Bt Gt D x dx dy dz c e =
      ∑ qz ∈ range Q1D, ∑ qy ∈ range Q1D, ∑ qx ∈ range Q1D,
        (a3u0 D1D Q1D B G D x c e qz qy qx *
            (Gt dx qx * Bt dy qy * Bt dz qz) +
         a3u1 D1D Q1D B G D x c e qz qy qx *
            (Bt dx qx * Gt dy qy * Bt dz qz) +
         a3u2 D1D Q1D B G D x c e qz qy qx *
            (Bt dx qx * Bt dy qy * Gt dz qz)) := by
  unfold applyContrib3D
  simp only [Finset.sum_mul, ← Finset.sum_add_distrib]
  exact Finset.sum_congr rfl fun qz _ => Finset.sum_congr rfl fun qy _ =>
    Finset.sum_congr rfl fun qx _ => by ring

/-- Reversal of a triple `range` sum. -/
theorem sum_rev3 {n1 n2 n3 : ℕ} (f : ℕ → ℕ → ℕ → ℚ) :
    (∑ a ∈ range n1, ∑ b ∈ range n2, ∑ c ∈ range n3, f a b c) =
      ∑ c ∈ range n3, ∑ b ∈ range n2, ∑ a ∈ range n1, f a b c :=
  ((sum_rot3 f).trans (sum_rot3 fun b c a => f a b c)).trans
    (Finset.sum_congr rfl fun _ _ => Finset.sum_comm)

/-- Collapse of the x-stage of the 3D forward transform on a unit vector. -/
theorem a3gradX_unit (D1D : ℕ) (T : ℕ → ℕ → ℚ) (dx0 dy0 dz0 c0 e0 : ℕ)
    (hdx0 : dx0 < D1D) (dy dz c e qx : ℕ) :
    a3gradX D1D T (unit3D dx0 dy0 dz0 c0 e0) dy dz c e qx =
      if dy = dy0 ∧ dz = dz0 ∧ c = c0 ∧ e = e0 then T qx dx0 else 0 := by
  unfold a3gradX unit3D
  rw [sum_ite_unit hdx0 (dy = dy0 ∧ dz = dz0 ∧ c = c0 ∧ e = e0) 1
    fun d => T qx d]
  simp

/-- Collapse of the 3D forward x-derivative on a unit vector at its own
component and element. -/
theorem a3grad0_unit (D1D : ℕ) (B G : ℕ → ℕ → ℚ) (dx0 dy0 dz0 c0 e0 : ℕ)
    (hdx0 : dx0 < D1D) (hdy0 : dy0 < D1D) (hdz0 : dz0 < D1D) (qz qy qx : ℕ) :
    a3grad0 D1D B G (unit3D dx0 dy0 dz0 c0 e0) c0 e0 qz qy qx =
      G qx dx0 * B qy dy0 * B qz dz0 := by
  unfold a3grad0
  simp only [a3gradX_unit D1D G dx0 dy0 dz0 c0 e0 hdx0]
  rw [Finset.sum_congr rfl fun dz _ => congrArg (· * B qz dz)
    (sum_ite_unit hdy0 (dz = dz0 ∧ True ∧ True) (G qx dx0) fun d => B qy d)]
  rw [sum_ite_unit hdz0 (True ∧ True) (G qx dx0 * B qy dy0) fun d => B qz d]
  simp

/-- Collapse of the 3D forward y-derivative on a unit vector at its own
component and element. -/
theorem a3grad1_unit (D1D : ℕ) (B G : ℕ → ℕ → ℚ) (dx0 dy0 dz0 c0 e0 : ℕ)
    (hdx0 : dx0 < D1D) (hdy0 : dy0 < D1D) (hdz0 : dz0 < D1D) (qz qy qx : ℕ) :
    a3grad1 D1D B G (unit3D dx0 dy0 dz0 c0 e0) c0 e0 qz qy qx =
      B qx dx0 * G qy dy0 * B qz dz0 := by
  unfold a3grad1
  simp only [a3gradX_unit D1D B dx0 dy0 dz0 c0 e0 hdx0]
  rw [Finset.sum_congr rfl fun dz _ => congrArg (· * B qz dz)
    (sum_ite_unit hdy0 (dz = dz0 ∧ True ∧ True) (B qx dx0) fun d => G qy d)]
  rw [sum_ite_unit hdz0 (True ∧ True) (B qx dx0 * G qy dy0) fun d => B qz d]
  simp

/-- Collapse of the 3D forward z-derivative on a unit vector at its own
component and element. -/
theorem a3grad2_unit (D1D : ℕ) (B G : ℕ → ℕ → ℚ) (dx0 dy0 dz0 c0 e0 : ℕ)
    (hdx0 : dx0 < D1D) (hdy0 : dy0 < D1D) (hdz0 : dz0 < D1D) (qz qy qx : ℕ) :
    a3grad2 D1D B G (unit3D dx0 dy0 dz0 c0 e0) c0 e0 qz qy qx =
      B qx dx0 * B qy dy0 * G qz dz0 := by
  unfold a3grad2
  simp only [a3gradX_unit D1D B dx0 dy0 dz0 c0 e0 hdx0]
  rw [Finset.sum_congr rfl fun dz _ => congrArg (· * G qz dz)
    (sum_ite_unit hdy0 (dz = dz0 ∧ True ∧ True) (B qx dx0) fun d => B qy d)]
  rw [sum_ite_unit hdz0 (True ∧ True) (B qx dx0 * B qy dy0) fun d => G qz d]
  simp

/-- The pointwise-multiplied 3D gradient of a unit vector, component `0`. -/
theorem a3u0_unit (D1D Q1D : ℕ) (B G : ℕ → ℕ → ℚ) (D : ℕ → ℕ → ℕ → ℚ)
    (dx0 dy0 dz0 c0 e0 : ℕ) (hdx0 : dx0 < D1D) (hdy0 : dy0 < D1D)
    (hdz0 : dz0 < D1D) (qz qy qx : ℕ) :
    a3u0 D1D Q1D B G D (unit3D dx0 dy0 dz0 c0 e0) c0 e0 qz qy qx =
      D (qx + (qy + qz * Q1D) * Q1D) 0 e0 *
          (G qx dx0 * B qy dy0 * B qz dz0) +
        D (qx + (qy + qz * Q1D) * Q1D) 1 e0 *
          (B qx dx0 * G qy dy0 * B qz dz0) +
        D (qx + (qy + qz * Q1D) * Q1D) 2 e0 *
          (B qx dx0 * B qy dy0 * G qz dz0) := by
  unfold a3u0
  rw [a3grad0_unit D1D B G dx0 dy0 dz0 c0 e0 hdx0 hdy0 hdz0,
    a3grad1_unit D1D B G dx0 dy0 dz0 c0 e0 hdx0 hdy0 hdz0,
    a3grad2_unit D1D B G dx0 dy0 dz0 c0 e0 hdx0 hdy0 hdz0]

/-- The pointwise-multiplied 3D gradient of a unit vector, component `1`. -/
theorem a3u1_unit (D1D Q1D : ℕ) (B G : ℕ → ℕ → ℚ) (D : ℕ → ℕ → ℕ → ℚ)
    (dx0 dy0 dz0 c0 e0 : ℕ) (hdx0 : dx0 < D1D) (hdy0 : dy0 < D1D)
    (hdz0 : dz0 < D1D) (qz qy qx : ℕ) :
    a3u1 D1D Q1D B G D (unit3D dx0 dy0 dz0 c0 e0) c0 e0 qz qy qx =
      D (qx + (qy + qz * Q1D) * Q1D) 1 e0 *
          (G qx dx0 * B qy dy0 * B qz dz0) +
        D (qx + (qy + qz * Q1D) * Q1D) 3 e0 *
          (B qx dx0 * G qy dy0 * B qz dz0) +
        D (qx + (qy + qz * Q1D) * Q1D) 4 e0 *
          (B qx dx0 * B qy dy0 * G qz dz0) := by
  unfold a3u1
  rw [a3grad0_unit D1D B G dx0 dy0 dz0 c0 e0 hdx0 hdy0 hdz0,
    a3grad1_unit D1D B G dx0 dy0 dz0 c0 e0 hdx0 hdy0 hdz0,
    a3grad2_unit D1D B G dx0 dy0 dz0 c0 e0 hdx0 hdy0 hdz0]

/-- The pointwise-multiplied 3D gradient of a unit vector, component `2`. -/
theorem a3u2_unit (D1D Q1D : ℕ) (B G : ℕ → ℕ → ℚ) (D : ℕ → ℕ → ℕ → ℚ)
    (dx0 dy0 dz0 c0 e0 : ℕ) (hdx0 : dx0 < D1D) (hdy0 : dy0 < D1D)
    (hdz0 : dz0 < D1D) (qz qy qx : ℕ) :
    a3u2 D1D Q1D B G D (unit3D dx0 dy0 dz0 c0 e0) c0 e0 qz qy qx =
      D (qx + (qy + qz * Q1D) * Q1D) 2 e0 *
          (G qx dx0 * B qy dy0 * B qz dz0) +
        D (qx + (qy + qz * Q1D) * Q1D) 4 e0 *
          (B qx dx0 * G qy dy0 * B qz dz0) +
        D (qx + (qy + qz * Q1D) * Q1D) 5 e0 *
          (B qx dx0 * B qy dy0 * G qz dz0) := by
  unfold a3u2
  rw [a3grad0_unit D1D B G dx0 dy0 dz0 c0 e0 hdx0 hdy0 hdz0,
    a3grad1_unit D1D B G dx0 dy0 dz0 c0 e0 hdx0 hdy0 hdz0,
    a3grad2_unit D1D B G dx0 dy0 dz0 c0 e0 hdx0 hdy0 hdz0]

/-- Core of the 3D diagonal-consistency claim: the scalar computed by the
diagonal kernel at dof `(dx0,dy0,dz0)` equals the apply contribution on the
unit vector at that dof. -/
theorem diagTemp3D_eq_applyContrib (D1D Q1D : ℕ) (B G Bt Gt : ℕ → ℕ → ℚ)
    (D : ℕ → ℕ → ℕ → ℚ) (dx0 dy0 dz0 c0 e0 : ℕ)
    (hBt : ∀ d q, Bt d q = B q d) (hGt : ∀ d q, Gt d q = G q d)
    (hdx0 : dx0 < D1D) (hdy0 : dy0 < D1D) (hdz0 : dz0 < D1D) :
    diagTemp3D Q1D B G D e0 dx0 dy0 dz0 =
      applyContrib3D D1D Q1D B G Bt Gt D (unit3D dx0 dy0 dz0 c0 e0)
        dx0 dy0 dz0 c0 e0 := by
  rw [applyContrib3D_eq]
  rw [sum_rev3]
  unfold diagTemp3D dQDD dQQD
  simp only [Finset.sum_range_succ, Finset.sum_range_zero, zero_add]
  norm_num [wSel, kIdx]
  simp only [Finset.mul_sum, Finset.sum_mul, ← Finset.sum_add_distrib]
  refine Finset.sum_congr rfl fun qx _ => Finset.sum_congr rfl fun qy _ =>
    Finset.sum_congr rfl fun qz _ => ?_
  rw [a3u0_unit D1D Q1D B G D dx0 dy0 dz0 c0 e0 hdx0 hdy0 hdz0,
    a3u1_unit D1D Q1D B G D dx0 dy0 dz0 c0 e0 hdx0 hdy0 hdz0,
    a3u2_unit D1D Q1D B G D dx0 dy0 dz0 c0 e0 hdx0 hdy0 hdz0]
  simp only [hBt, hGt]
  ring

/-- C4: for every data `D`, basis tables `B`, `G` (with `Bt`, `Gt` their
transposes), every dof and every vector component, the diagonal kernels
produce exactly the matching entry of the apply kernel evaluated on the unit
nodal vector at that dof with zero-initialized output, in 2D and in 3D. -/
theorem diag_matches_apply (D1D Q1D NE : ℕ) (B G Bt Gt : ℕ → ℕ → ℚ)
    (D2 D3 : ℕ → ℕ → ℕ → ℚ) (dx0 dy0 dz0 c2 c3 e0 : ℕ)
    (hBt : ∀ d q, Bt d q = B q d) (hGt : ∀ d q, Gt d q = G q d)
    (hdx0 : dx0 < D1D) (hdy0 : dy0 < D1D) (hdz0 : dz0 < D1D)
    (hc2 : c2 < 2) (hc3 : c3 < 3) (he0 : e0 < NE) :
    diag2DOut D1D Q1D NE B G D2 (fun _ _ _ _ => 0) dx0 dy0 c2 e0 =
      apply2DOut D1D Q1D 2 NE B G Bt Gt D2 (unit2D dx0 dy0 c2 e0)
        (fun _ _ _ _ => 0) dx0 dy0 c2 e0 ∧
    diag3DOut D1D Q1D NE B G D3 (fun _ _ _ _ _ => 0) dx0 dy0 dz0 c3 e0 =
      apply3DOut D1D Q1D NE B G Bt Gt D3 (unit3D dx0 dy0 dz0 c3 e0)
        (fun _ _ _ _ _ => 0) dx0 dy0 dz0 c3 e0 := by
  constructor
  · have hguard : dx0 < D1D ∧ dy0 < D1D ∧ c2 < 2 ∧ e0 < NE :=
      ⟨hdx0, hdy0, hc2, he0⟩
    simp only [diag2DOut, apply2DOut, if_pos hguard]
    rw [diagTemp2D_eq_applyContrib D1D Q1D B G Bt Gt D2 dx0 dy0 c2 e0
      hBt hGt hdx0 hdy0]
  · have hguard : dx0 < D1D ∧ dy0 < D1D ∧ dz0 < D1D ∧ c3 < 3 ∧ e0 < NE :=
      ⟨hdx0, hdy0, hdz0, hc3, he0⟩
    simp only [diag3DOut, apply3DOut, if_pos hguard]
    rw [diagTemp3D_eq_applyContrib D1D Q1D B G Bt Gt D3 dx0 dy0 dz0 c3 e0
      hBt hGt hdx0 hdy0 hdz0]

/-- Witness for C4 at `D1D = Q1D = NE = 1`, all-ones tables and data,
components `1` (2D) and `2` (3D). -/
theorem diag_matches_apply_witness :
    diag2DOut 1 1 1 (fun _ _ => 1) (fun _ _ => 1) (fun _ _ _ => 1)
        (fun _ _ _ _ => 0) 0 0 1 0 =
      apply2DOut 1 1 2 1 (fun _ _ => 1) (fun _ _ => 1) (fun _ _ => 1)
        (fun _ _ => 1) (fun _ _ _ => 1) (unit2D 0 0 1 0)
        (fun _ _ _ _ => 0) 0 0 1 0 ∧
    diag3DOut 1 1 1 (fun _ _ => 1) (fun _ _ => 1) (fun _ _ _ => 1)
        (fun _ _ _ _ _ => 0) 0 0 0 2 0 =
      apply3DOut 1 1 1 (fun _ _ => 1) (fun _ _ => 1) (fun _ _ => 1)
        (fun _ _ => 1) (fun _ _ _ => 1) (unit3D 0 0 0 2 0)
        (fun _ _ _ _ _ => 0) 0 0 0 2 0 :=
  diag_matches_apply 1 1 1 (fun _ _ => 1) (fun _ _ => 1) (fun _ _ => 1)
    (fun _ _ => 1) (fun _ _ _ => 1) (fun _ _ _ => 1) 0 0 0 1 2 0
    (fun _ _ => rfl) (fun _ _ => rfl) (by norm_num) (by norm_num)
    (by norm_num) (by norm_num) (by norm_num) (by norm_num)

/-- Quadrature form of the 2D pairing: summing the apply contribution on `x`
against a second nodal vector `v` equals the quadrature sum of the
transformed gradient of `x` against the gradient of `v`. -/
theorem dotContrib2D (D1D Q1D : ℕ) (B G Bt Gt : ℕ → ℕ → ℚ)
    (D : ℕ → ℕ → ℕ → ℚ) (x v : ℕ → ℕ → ℕ → ℕ → ℚ) (c e : ℕ)
    (hBt : ∀ d q, Bt d q = B q d) (hGt : ∀ d q, Gt d q = G q d) :
    (∑ dy ∈ range D1D, ∑ dx ∈ range D1D,
        applyContrib2D D1D Q1D B G Bt Gt D x dx dy c e * v dx dy c e) =
      ∑ qy ∈ range Q1D, ∑ qx ∈ range Q1D,
        (a2u0 D1D Q1D B G D x c e qy qx * a2grad0 D1D B G v c e qy qx +
         a2u1 D1D Q1D B G D x c e qy qx * a2grad1 D1D B G v c e qy qx) := by
  simp only [applyContrib2D_eq, Finset.sum_mul]
  rw [sum_swap22]
  refine Finset.sum_congr rfl fun qy _ => Finset.sum_congr rfl fun qx _ => ?_
  rw [a2grad0_eq D1D B G v c e qy qx, a2grad1_eq D1D B G v c e qy qx]
  simp only [Finset.mul_sum, ← Finset.sum_add_distrib]
  refine Finset.sum_congr rfl fun dy _ => Finset.sum_congr rfl fun dx _ => ?_
  simp only [hBt, hGt]
  ring

/-- Quadrature form of the 3D pairing. -/
theorem dotContrib3D (D1D Q1D : ℕ) (B G Bt Gt : ℕ → ℕ → ℚ)
    (D : ℕ → ℕ → ℕ → ℚ) (x v : ℕ → ℕ → ℕ → ℕ → ℕ → ℚ) (c e : ℕ)
    (hBt : ∀ d q, Bt d q = B q d) (hGt : ∀ d q, Gt d q = G q d) :
    (∑ dz ∈ range D1D, ∑ dy ∈ range D1D, ∑ dx ∈ range D1D,
        applyContrib3D D1D Q1D B G Bt Gt D x dx dy dz c e *
          v dx dy dz c e) =
      ∑ qz ∈ range Q1D, ∑ qy ∈ range Q1D, ∑ qx ∈ range Q1D,
        (a3u0 D1D Q1D B G D x c e qz qy qx *
            a3grad0 D1D B G v c e qz qy qx +
         a3u1 D1D Q1D B G D x c e qz qy qx *
            a3grad1 D1D B G v c e qz qy qx +
         a3u2 D1D Q1D B G D x c e qz qy qx *
            a3grad2 D1D B G v c e qz qy qx) := by
  simp only [applyContrib3D_eq, Finset.sum_mul]
  rw [sum_swap33]
  refine Finset.sum_congr rfl fun qz _ => Finset.sum_congr rfl fun qy _ =>
    Finset.sum_congr rfl fun qx _ => ?_
  rw [a3grad0_eq D1D B G v c e qz qy qx, a3grad1_eq D1D B G v c e qz qy qx,
    a3grad2_eq D1D B G v c e qz qy qx]
  simp only [Finset.mul_sum, ← Finset.sum_add_distrib]
  refine Finset.sum_congr rfl fun dz _ => Finset.sum_congr rfl fun dy _ =>
    Finset.sum_congr rfl fun dx _ => ?_
  simp only [hBt, hGt]
  ring

/-- C5: with `Bt`, `Gt` the transposes of `B`, `G`, the operator implied by
the per-point data `D` through the apply kernels is symmetric:
`dot(Apply(D,x), w) = dot(x, Apply(D,w))` (zero-initialized outputs), in
both 2D and 3D. -/
theorem apply_symmetric (D1D Q1D VDIM NE : ℕ) (B G Bt Gt : ℕ → ℕ → ℚ)
    (D2 D3 : ℕ → ℕ → ℕ → ℚ) (x2 w2 : ℕ → ℕ → ℕ → ℕ → ℚ)
    (x3 w3 : ℕ → ℕ → ℕ → ℕ → ℕ → ℚ)
    (hBt : ∀ d q, Bt d q = B q d) (hGt : ∀ d q, Gt d q = G q d) :
    dot2D D1D VDIM NE
        (apply2DOut D1D Q1D VDIM NE B G Bt Gt D2 x2 (fun _ _ _ _ => 0))
        w2 =
      dot2D D1D VDIM NE x2
        (apply2DOut D1D Q1D VDIM NE B G Bt Gt D2 w2 (fun _ _ _ _ => 0)) ∧
    dot3D D1D NE
        (apply3DOut D1D Q1D NE B G Bt Gt D3 x3 (fun _ _ _ _ _ => 0)) w3 =
      dot3D D1D NE x3
        (apply3DOut D1D Q1D NE B G Bt Gt D3 w3 (fun _ _ _ _ _ => 0)) := by
  constructor
  · unfold dot2D
    refine Finset.sum_congr rfl fun e he => Finset.sum_congr rfl fun c hc =>
      ?_
    have hce := Finset.mem_range.mp hc
    have hee := Finset.mem_range.mp he
    have h1 : (∑ dy ∈ range D1D, ∑ dx ∈ range D1D,
        apply2DOut D1D Q1D VDIM NE B G Bt Gt D2 x2 (fun _ _ _ _ => 0)
          dx dy c e * w2 dx dy c e) =
        ∑ dy ∈ range D1D, ∑ dx ∈ range D1D,
          applyContrib2D D1D Q1D B G Bt Gt D2 x2 dx dy c e *
            w2 dx dy c e := by
      refine Finset.sum_congr rfl fun dy hdy =>
        Finset.sum_congr rfl fun dx hdxm => ?_
      have hg : dx < D1D ∧ dy < D1D ∧ c < VDIM ∧ e < NE :=
        ⟨Finset.mem_range.mp hdxm, Finset.mem_range.mp hdy, hce, hee⟩
      simp [apply2DOut, hg]
    have h2 : (∑ dy ∈ range D1D, ∑ dx ∈ range D1D,
        x2 dx dy c e *
          apply2DOut D1D Q1D VDIM NE B G Bt Gt D2 w2 (fun _ _ _ _ => 0)
            dx dy c e) =
        ∑ dy ∈ range D1D, ∑ dx ∈ range D1D,
          applyContrib2D D1D Q1D B G Bt Gt D2 w2 dx dy c e *
            x2 dx dy c e := by
      refine Finset.sum_congr rfl fun dy hdy =>
        Finset.sum_congr rfl fun dx hdxm => ?_
      have hg : dx < D1D ∧ dy < D1D ∧ c < VDIM ∧ e < NE :=
        ⟨Finset.mem_range.mp hdxm, Finset.mem_range.mp hdy, hce, hee⟩
      simp [apply2DOut, hg]
      ring
    rw [h1, h2, dotContrib2D D1D Q1D B G Bt Gt D2 x2 w2 c e hBt hGt,
      dotContrib2D D1D Q1D B G Bt Gt D2 w2 x2 c e hBt hGt]
    refine Finset.sum_congr rfl fun qy _ =>
      Finset.sum_congr rfl fun qx _ => ?_
    simp only [a2u0, a2u1]
    ring
  · unfold dot3D
    refine Finset.sum_congr rfl fun e he => Finset.sum_congr rfl fun c hc =>
      ?_
    have hce := Finset.mem_range.mp hc
    have hee := Finset.mem_range.mp he
    have h1 : (∑ dz ∈ range D1D, ∑ dy ∈ range D1D, ∑ dx ∈ range D1D,
        apply3DOut D1D Q1D NE B G Bt Gt D3 x3 (fun _ _ _ _ _ => 0)
          dx dy dz c e * w3 dx dy dz c e) =
        ∑ dz ∈ range D1D, ∑ dy ∈ range D1D, ∑ dx ∈ range D1D,
          applyContrib3D D1D Q1D B G Bt Gt D3 x3 dx dy dz c e *
            w3 dx dy dz c e := by
      refine Finset.sum_congr rfl fun dz hdz =>
        Finset.sum_congr rfl fun dy hdy =>
          Finset.sum_congr rfl fun dx hdxm => ?_
      have hg : dx < D1D ∧ dy < D1D ∧ dz < D1D ∧ c < 3 ∧ e < NE :=
        ⟨Finset.mem_range.mp hdxm, Finset.mem_range.mp hdy,
          Finset.mem_range.mp hdz, hce, hee⟩
      simp [apply3DOut, hg]
    have h2 : (∑ dz ∈ range D1D, ∑ dy ∈ range D1D, ∑ dx ∈ range D1D,
        x3 dx dy dz c e *
          apply3DOut D1D Q1D NE B G Bt Gt D3 w3 (fun _ _ _ _ _ => 0)
            dx dy dz c e) =
        ∑ dz ∈ range D1D, ∑ dy ∈ range D1D, ∑ dx ∈ range D1D,
          applyContrib3D D1D Q1D B G Bt Gt D3 w3 dx dy dz c e *
            x3 dx dy dz c e := by
      refine Finset.sum_congr rfl fun dz hdz =>
        Finset.sum_congr rfl fun dy hdy =>
          Finset.sum_congr rfl fun dx hdxm => ?_
      have hg : dx < D1D ∧ dy < D1D ∧ dz < D1D ∧ c < 3 ∧ e < NE :=
        ⟨Finset.mem_range.mp hdxm, Finset.mem_range.mp hdy,
          Finset.mem_range.mp hdz, hce, hee⟩
      simp [apply3DOut, hg]
      ring
    rw [h1, h2, dotContrib3D D1D Q1D B G Bt Gt D3 x3 w3 c e hBt hGt,
      dotContrib3D D1D Q1D B G Bt Gt D3 w3 x3 c e hBt hGt]
    refine Finset.sum_congr rfl fun qz _ => Finset.sum_congr rfl fun qy _ =>
      Finset.sum_congr rfl fun qx _ => ?_
    simp only [a3u0, a3u1, a3u2]
    ring

/-- Witness for C5 at `D1D = Q1D = VDIM = NE = 1` with simple concrete
data. -/
theorem apply_symmetric_witness :
    dot2D 1 1 1
        (apply2DOut 1 1 1 1 (fun _ _ => 1) (fun _ _ => 1) (fun _ _ => 1)
          (fun _ _ => 1) (fun _ _ _ => 1) (fun _ _ _ _ => 2)
          (fun _ _ _ _ => 0)) (fun _ _ _ _ => 3) =
      dot2D 1 1 1 (fun _ _ _ _ => 2)
        (apply2DOut 1 1 1 1 (fun _ _ => 1) (fun _ _ => 1) (fun _ _ => 1)
          (fun _ _ => 1) (fun _ _ _ => 1) (fun _ _ _ _ => 3)
          (fun _ _ _ _ => 0)) ∧
    dot3D 1 1
        (apply3DOut 1 1 1 (fun _ _ => 1) (fun _ _ => 1) (fun _ _ => 1)
          (fun _ _ => 1) (fun _ _ _ => 1) (fun _ _ _ _ _ => 2)
          (fun _ _ _ _ _ => 0)) (fun _ _ _ _ _ => 3) =
      dot3D 1 1 (fun _ _ _ _ _ => 2)
        (apply3DOut 1 1 1 (fun _ _ => 1) (fun _ _ => 1) (fun _ _ => 1)
          (fun _ _ => 1) (fun _ _ _ => 1) (fun _ _ _ _ _ => 3)
          (fun _ _ _ _ _ => 0)) :=
  apply_symmetric 1 1 1 1 (fun _ _ => 1) (fun _ _ => 1) (fun _ _ => 1)
    (fun _ _ => 1) (fun _ _ _ => 1) (fun _ _ _ => 1) (fun _ _ _ _ => 2)
    (fun _ _ _ _ => 3) (fun _ _ _ _ _ => 2) (fun _ _ _ _ _ => 3)
    (fun _ _ => rfl) (fun _ _ => rfl)
